import Mathlib

/-!
# Radio controller (`components/wifi_controller/wifi_controller.c`)

A shallow embedding of the Wi-Fi controller of the ESP32 penetration tool.

The controller owns two file-scope variables, `wifi_init` and
`original_mac_ap`, and talks to the ESP-IDF radio driver.  Every effect the C
code has on the outside world is a driver call or a log line; both are recorded,
in program order, in `World.trace`.  The error code a driver call returns is not
decided by the controller: it is read from `World.responses`, an arbitrary list
that the theorems quantify over (an exhausted list answers `ESP_OK`).

`ESP_ERROR_CHECK` aborts the firmware when its argument is not `ESP_OK`; an
aborted run is the `Outcome.aborted` constructor, which keeps the world reached
at the abort so that the requests issued before it remain observable.
-/

namespace WifiController

/-! ## ESP-IDF types used by the controller -/

/-- Error code of the driver API (`esp_err_t`). -/
abbrev esp_err_t := Int

/-- The success code `ESP_OK`. -/
def ESP_OK : esp_err_t := 0

/-- Log severities used by the controller (`ESP_LOGE`, `ESP_LOGI`, `ESP_LOGD`). -/
inductive esp_log_level_t
  | ESP_LOG_ERROR
  | ESP_LOG_INFO
  | ESP_LOG_DEBUG
  deriving DecidableEq, Repr

/-- Radio interfaces (`wifi_interface_t`). -/
inductive wifi_interface_t
  | WIFI_IF_STA
  | WIFI_IF_AP
  deriving DecidableEq, Repr

/-- Radio operating modes (`wifi_mode_t`). -/
inductive wifi_mode_t
  | WIFI_MODE_NULL
  | WIFI_MODE_STA
  | WIFI_MODE_AP
  | WIFI_MODE_APSTA
  deriving DecidableEq, Repr

/-- Authentication modes (`wifi_auth_mode_t`); `WIFI_AUTH_OPEN` is the zero value. -/
inductive wifi_auth_mode_t
  | WIFI_AUTH_OPEN
  | WIFI_AUTH_WEP
  | WIFI_AUTH_WPA_PSK
  | WIFI_AUTH_WPA2_PSK
  deriving DecidableEq, Repr

/-- Scan methods (`wifi_scan_method_t`); `WIFI_FAST_SCAN` is the zero value. -/
inductive wifi_scan_method_t
  | WIFI_FAST_SCAN
  | WIFI_ALL_CHANNEL_SCAN
  deriving DecidableEq, Repr

/-- Secondary channel position (`wifi_second_chan_t`). -/
inductive wifi_second_chan_t
  | WIFI_SECOND_CHAN_NONE
  | WIFI_SECOND_CHAN_ABOVE
  | WIFI_SECOND_CHAN_BELOW
  deriving DecidableEq, Repr

/-- Protected-management-frame settings (`wifi_pmf_config_t`). -/
structure wifi_pmf_config_t where
  capable : Bool
  required : Bool
  deriving DecidableEq, Repr

/-- The fields of `wifi_ap_config_t` the controller reads or writes.  `ssid` is
the 32-byte array, `password` the 64-byte array; bytes are naturals below 256. -/
structure wifi_ap_config_t where
  ssid : List Nat
  password : List Nat
  ssid_len : Nat
  channel : Nat
  authmode : wifi_auth_mode_t
  ssid_hidden : Nat
  max_connection : Nat
  pmf_cfg : wifi_pmf_config_t
  deriving DecidableEq, Repr

/-- The fields of `wifi_sta_config_t` the controller reads or writes. -/
structure wifi_sta_config_t where
  ssid : List Nat
  password : List Nat
  scan_method : wifi_scan_method_t
  channel : Nat
  pmf_cfg : wifi_pmf_config_t
  deriving DecidableEq, Repr

/-- The fields of `wifi_ap_record_t` the controller reads: `ssid` is the 33-byte
array of the record, `primary` its channel. -/
structure wifi_ap_record_t where
  bssid : List Nat
  ssid : List Nat
  primary : Nat
  deriving DecidableEq, Repr

/-- Event bases an event can be posted under (`esp_event_base_t`). -/
inductive esp_event_base_t
  | WIFI_EVENT
  | IP_EVENT
  | OTHER_EVENT
  deriving DecidableEq, Repr

/-! Values of the `wifi_event_t` and `ip_event_t` enumerators named in the
handler (ESP-IDF numbering). -/

def WIFI_EVENT_STA_START : Int := 2
def WIFI_EVENT_STA_CONNECTED : Int := 4
def WIFI_EVENT_STA_DISCONNECTED : Int := 5
def WIFI_EVENT_AP_START : Int := 12
def WIFI_EVENT_AP_STOP : Int := 13
def IP_EVENT_STA_GOT_IP : Int := 0

/-! ## C library helpers -/

/-- The bytes of a C string: everything before the first NUL byte. -/
def cstr (s : List Nat) : List Nat := s.takeWhile (fun b => b != 0)

/-- The C library `strlen`. -/
def strlen (s : List Nat) : Nat := (cstr s).length

/-- The C library `strncpy(dst, src, n)`, as the `n` bytes written to `dst`: at most
`n` bytes of the string, then NUL padding up to `n`. -/
def strncpy (src : List Nat) (n : Nat) : List Nat :=
  (cstr src).take n ++ List.replicate (n - ((cstr src).take n).length) 0

/-- The C library `memcpy(dst, src, n)`, as the `n` bytes written to `dst`. -/
def memcpy (src : List Nat) (n : Nat) : List Nat :=
  (List.range n).map (fun i => src.getD i 0)

/-- The zero-initialised AP member of `wifi_config_t` (`= {0}`). -/
def wifi_ap_config_zero : wifi_ap_config_t :=
  { ssid := List.replicate 32 0, password := List.replicate 64 0, ssid_len := 0, channel := 0,
    authmode := .WIFI_AUTH_OPEN, ssid_hidden := 0, max_connection := 0,
    pmf_cfg := { capable := false, required := false } }

/-- The zero-initialised station member of `wifi_config_t` (`= {0}`). -/
def wifi_sta_config_zero : wifi_sta_config_t :=
  { ssid := List.replicate 32 0, password := List.replicate 64 0,
    scan_method := .WIFI_FAST_SCAN, channel := 0,
    pmf_cfg := { capable := false, required := false } }

/-! ## The driver boundary -/

/-- The calls the controller makes into ESP-IDF, with their arguments. -/
inductive Request
  | esp_netif_init
  | esp_netif_create_default_wifi_ap
  | esp_netif_create_default_wifi_sta
  | esp_wifi_init
  | esp_wifi_set_storage
  | esp_wifi_set_mode (mode : wifi_mode_t)
  | esp_event_handler_register (event_base : esp_event_base_t)
  | esp_wifi_get_mac (ifx : wifi_interface_t)
  | esp_wifi_start
  | esp_wifi_set_config_ap (conf : wifi_ap_config_t)
  | esp_wifi_set_config_sta (conf : wifi_sta_config_t)
  | esp_wifi_connect
  | esp_wifi_disconnect
  | esp_wifi_set_mac (ifx : wifi_interface_t) (mac : List Nat)
  | esp_wifi_set_channel (primary : Nat) (second : wifi_second_chan_t)
  deriving DecidableEq, Repr

/-- One observable effect of the controller: a log line (severity and format
string) or a driver call together with the code it returned. -/
inductive Effect
  | log (level : esp_log_level_t) (format : String)
  | call (req : Request) (ret : esp_err_t)
  deriving DecidableEq, Repr

/-- Modelled from the spec: the radio driver is an external collaborator whose code
is not part of the repository; this is the part of its state the controller's
contract speaks about (operating mode, the MAC of each interface, the channel,
and the configuration in effect on each interface). -/
structure Driver where
  mode : wifi_mode_t
  mac_ap : List Nat
  mac_sta : List Nat
  channel : Nat
  config_ap : wifi_ap_config_t
  config_sta : wifi_sta_config_t
  deriving DecidableEq, Repr

/-- Modelled from the spec: what an accepted driver request does to the driver
state.  A setter stores its argument; every other request leaves the modelled
state alone. -/
def Driver.accept (d : Driver) : Request → Driver
  | .esp_wifi_set_mode m => { d with mode := m }
  | .esp_wifi_set_config_ap c => { d with config_ap := c }
  | .esp_wifi_set_config_sta c => { d with config_sta := c }
  | .esp_wifi_set_mac .WIFI_IF_AP m => { d with mac_ap := m }
  | .esp_wifi_set_mac .WIFI_IF_STA m => { d with mac_sta := m }
  | .esp_wifi_set_channel p _ => { d with channel := p }
  | _ => d

/-- Modelled from the spec: the MAC address the driver reports for an interface. -/
def Driver.mac (d : Driver) : wifi_interface_t → List Nat
  | .WIFI_IF_AP => d.mac_ap
  | .WIFI_IF_STA => d.mac_sta

/-- The whole state: the controller's two static variables, the driver, the error
codes the driver will answer with, and the effects produced so far. -/
structure World where
  wifi_init : Bool
  original_mac_ap : List Nat
  drv : Driver
  responses : List esp_err_t
  trace : List Effect
  deriving DecidableEq, Repr

/-- Result of running a controller function: it returned, or `ESP_ERROR_CHECK`
aborted the firmware. -/
inductive Outcome
  | returned (w : World)
  | aborted (w : World)
  deriving DecidableEq, Repr

/-- The world an outcome ends in. -/
def Outcome.world : Outcome → World
  | .returned w => w
  | .aborted w => w

/-- Sequencing: continue only when the first part returned. -/
def Outcome.andThen (o : Outcome) (k : World → Outcome) : Outcome :=
  match o with
  | .returned w => k w
  | .aborted w => .aborted w

/-- A log macro (`ESP_LOGE` / `ESP_LOGI` / `ESP_LOGD`): appends the line to the trace. -/
def ESP_LOG (level : esp_log_level_t) (format : String) (w : World) : World :=
  { w with trace := w.trace ++ [Effect.log level format] }

/-- The code the driver returns for the next call. -/
def World.answer (w : World) : esp_err_t := w.responses.headD ESP_OK

/-- A driver call returning `esp_err_t`: the next response is consumed, the call is
recorded with it, and an accepted request takes effect on the driver state. -/
def driverCall (req : Request) (w : World) : esp_err_t × World :=
  let err := w.answer
  (err, { w with
            responses := w.responses.tail
            trace := w.trace ++ [Effect.call req err]
            drv := if err = ESP_OK then w.drv.accept req else w.drv })

/-- A driver call that returns no error code (`esp_netif_create_default_wifi_*`). -/
def driverCallVoid (req : Request) (w : World) : World :=
  { w with trace := w.trace ++ [Effect.call req ESP_OK] }

/-- The macro `ESP_ERROR_CHECK(x)`: abort unless `x` is `ESP_OK`. -/
def ESP_ERROR_CHECK (r : esp_err_t × World) : Outcome :=
  if r.1 = ESP_OK then .returned r.2 else .aborted r.2

/-- The driver's `esp_wifi_get_mac(ifx, buf)`: on success the buffer receives the
interface's MAC, otherwise it is left as it was. -/
def esp_wifi_get_mac (ifx : wifi_interface_t) (buf : List Nat) (w : World) :
    esp_err_t × List Nat × World :=
  let r := driverCall (.esp_wifi_get_mac ifx) w
  (r.1, if r.1 = ESP_OK then w.drv.mac ifx else buf, r.2)

/-! ## The controller -/

/-- The handler registered for radio events.  `esp_wifi_connect()` is called without
`ESP_ERROR_CHECK`, so the handler always returns. -/
def wifi_event_handler (event_base : esp_event_base_t) (event_id : Int) (w : World) : World :=
  let w1 :=
    if event_base = .WIFI_EVENT then
      if event_id = WIFI_EVENT_AP_START then
        ESP_LOG .ESP_LOG_INFO "AP started" w
      else if event_id = WIFI_EVENT_AP_STOP then
        ESP_LOG .ESP_LOG_INFO "AP stopped" w
      else if event_id = WIFI_EVENT_STA_START then
        ESP_LOG .ESP_LOG_INFO "STA started" w
      else if event_id = WIFI_EVENT_STA_CONNECTED then
        ESP_LOG .ESP_LOG_INFO "STA connected to AP" w
      else if event_id = WIFI_EVENT_STA_DISCONNECTED then
        (driverCall .esp_wifi_connect (ESP_LOG .ESP_LOG_INFO "STA disconnected from AP" w)).2
      else w
    else w
  if event_base = .IP_EVENT ∧ event_id = IP_EVENT_STA_GOT_IP then
    ESP_LOG .ESP_LOG_INFO "STA got IP" w1
  else w1

/-- The statement `ESP_ERROR_CHECK(esp_wifi_get_mac(WIFI_IF_AP, original_mac_ap))`:
the driver writes straight into the static. -/
def save_original_mac_ap (w : World) : Outcome :=
  let r := esp_wifi_get_mac .WIFI_IF_AP w.original_mac_ap w
  ESP_ERROR_CHECK (r.1, { r.2.2 with original_mac_ap := r.2.1 })

/-- The static `wifi_init_apsta`: brings the radio up in AP+STA mode, registers the
event handler, saves the AP MAC into `original_mac_ap`, starts the radio and sets
`wifi_init`.  Every step is under `ESP_ERROR_CHECK`. -/
def wifi_init_apsta (w : World) : Outcome :=
  (ESP_ERROR_CHECK (driverCall .esp_netif_init w)).andThen fun w =>
  let w := driverCallVoid .esp_netif_create_default_wifi_ap w
  let w := driverCallVoid .esp_netif_create_default_wifi_sta w
  (ESP_ERROR_CHECK (driverCall .esp_wifi_init w)).andThen fun w =>
  (ESP_ERROR_CHECK (driverCall .esp_wifi_set_storage w)).andThen fun w =>
  (ESP_ERROR_CHECK (driverCall (.esp_wifi_set_mode .WIFI_MODE_APSTA) w)).andThen fun w =>
  (ESP_ERROR_CHECK (driverCall (.esp_event_handler_register .WIFI_EVENT) w)).andThen fun w =>
  (save_original_mac_ap w).andThen fun w =>
  (ESP_ERROR_CHECK (driverCall .esp_wifi_start w)).andThen fun w =>
  .returned { w with wifi_init := true }

/-- The guard `if(!wifi_init){ wifi_init_apsta(); }` that opens `wifictl_ap_start` and
`wifictl_sta_connect_to_ap`. -/
def init_guard (w : World) : Outcome :=
  if !w.wifi_init then wifi_init_apsta w else .returned w

/-- The statements of `wifictl_ap_start` after the guard: apply the AP configuration
and log the result. -/
def ap_apply (wifi_config : wifi_ap_config_t) (w : World) : Outcome :=
  let r := driverCall (.esp_wifi_set_config_ap wifi_config) w
  if r.1 ≠ ESP_OK then
    .returned (ESP_LOG .ESP_LOG_ERROR "Failed to set AP config: %s" r.2)
  else
    .returned (ESP_LOG .ESP_LOG_INFO "AP started with SSID=%s" r.2)

/-- The controller function `wifictl_ap_start(wifi_config)`. -/
def wifictl_ap_start (wifi_config : wifi_ap_config_t) (w : World) : Outcome :=
  let w := ESP_LOG .ESP_LOG_DEBUG "Starting AP..." w
  (init_guard w).andThen fun w =>
  ap_apply wifi_config w

/-- The controller function `wifictl_ap_stop()`. -/
def wifictl_ap_stop (w : World) : Outcome :=
  let w := ESP_LOG .ESP_LOG_DEBUG "Stopping AP..." w
  let wifi_config : wifi_ap_config_t := { wifi_ap_config_zero with max_connection := 0 }
  (ESP_ERROR_CHECK (driverCall (.esp_wifi_set_config_ap wifi_config) w)).andThen fun w =>
  .returned (ESP_LOG .ESP_LOG_DEBUG "AP stopped" w)

/-- The build-time settings of the management AP (`CONFIG_MGMT_AP_*`), which the
source takes from the project configuration. -/
structure MgmtConfig where
  CONFIG_MGMT_AP_SSID : List Nat
  CONFIG_MGMT_AP_PASSWORD : List Nat
  CONFIG_MGMT_AP_MAX_CONNECTIONS : Nat
  deriving DecidableEq, Repr

/-- The configuration `wifictl_mgmt_ap_start` builds; `ssid_len` and
`max_connection` are 8-bit fields. -/
def mgmt_wifi_config (k : MgmtConfig) : wifi_ap_config_t :=
  let c := wifi_ap_config_zero
  let c := { c with ssid := strncpy k.CONFIG_MGMT_AP_SSID 32 }
  let c := { c with ssid_len := strlen k.CONFIG_MGMT_AP_SSID % 256 }
  let c := { c with password := strncpy k.CONFIG_MGMT_AP_PASSWORD 64 }
  let c := { c with max_connection := k.CONFIG_MGMT_AP_MAX_CONNECTIONS % 256 }
  let c := { c with authmode := .WIFI_AUTH_WPA2_PSK }
  let c := { c with channel := 1 }
  let c := { c with ssid_hidden := 0 }
  let c := { c with pmf_cfg := { capable := false, required := false } }
  c

/-- The controller function `wifictl_mgmt_ap_start()`. -/
def wifictl_mgmt_ap_start (k : MgmtConfig) (w : World) : Outcome :=
  wifictl_ap_start (mgmt_wifi_config k) w

/-- The station configuration `wifictl_sta_connect_to_ap` builds before it looks at
the password. -/
def sta_wifi_config (ap_record : wifi_ap_record_t) : wifi_sta_config_t :=
  let c := wifi_sta_config_zero
  let c := { c with channel := ap_record.primary }
  let c := { c with scan_method := .WIFI_FAST_SCAN }
  let c := { c with pmf_cfg := { capable := false, required := false } }
  let c := { c with ssid := memcpy ap_record.ssid 32 }
  c

/-- The tail of `wifictl_sta_connect_to_ap`, reached when the password was not
rejected: apply the station configuration and, if the driver took it, connect. -/
def sta_apply_and_connect (conf : wifi_sta_config_t) (w : World) : Outcome :=
  let w := ESP_LOG .ESP_LOG_DEBUG ".ssid=%s" w
  let r := driverCall (.esp_wifi_set_config_sta conf) w
  if r.1 ≠ ESP_OK then
    .returned (ESP_LOG .ESP_LOG_ERROR "Failed to set STA config: %s" r.2)
  else
    ESP_ERROR_CHECK (driverCall .esp_wifi_connect r.2)

/-- The controller function `wifictl_sta_connect_to_ap(ap_record, password)`; a NULL
password is `none`. -/
def wifictl_sta_connect_to_ap (ap_record : wifi_ap_record_t) (password : Option (List Nat))
    (w : World) : Outcome :=
  let w := ESP_LOG .ESP_LOG_DEBUG "Connecting STA to AP..." w
  (init_guard w).andThen fun w =>
  let conf := sta_wifi_config ap_record
  match password with
  | some p =>
    if strlen p > 63 then
      .returned (ESP_LOG .ESP_LOG_ERROR "Password is too long. Max supported length is 63" w)
    else
      sta_apply_and_connect { conf with password := strncpy p 64 } w
  | none => sta_apply_and_connect conf w

/-- The controller function `wifictl_sta_disconnect()`. -/
def wifictl_sta_disconnect (w : World) : Outcome :=
  ESP_ERROR_CHECK (driverCall .esp_wifi_disconnect w)

/-- The controller function `wifictl_set_ap_mac(mac_ap)`. -/
def wifictl_set_ap_mac (mac_ap : List Nat) (w : World) : Outcome :=
  let w := ESP_LOG .ESP_LOG_DEBUG "Changing AP MAC address..." w
  ESP_ERROR_CHECK (driverCall (.esp_wifi_set_mac .WIFI_IF_AP mac_ap) w)

/-- The controller function `wifictl_get_ap_mac(mac_ap)`: returns the caller's buffer
after the call. -/
def wifictl_get_ap_mac (mac_ap : List Nat) (w : World) : List Nat × World :=
  (esp_wifi_get_mac .WIFI_IF_AP mac_ap w).2

/-- The controller function `wifictl_restore_ap_mac()`. -/
def wifictl_restore_ap_mac (w : World) : Outcome :=
  let w := ESP_LOG .ESP_LOG_DEBUG "Restoring original AP MAC address..." w
  ESP_ERROR_CHECK (driverCall (.esp_wifi_set_mac .WIFI_IF_AP w.original_mac_ap) w)

/-- The controller function `wifictl_get_sta_mac(mac_sta)`. -/
def wifictl_get_sta_mac (mac_sta : List Nat) (w : World) : List Nat × World :=
  (esp_wifi_get_mac .WIFI_IF_STA mac_sta w).2

/-- The controller function `wifictl_set_channel(channel)`. -/
def wifictl_set_channel (channel : Nat) (w : World) : Outcome :=
  if channel = 0 ∨ channel > 13 then
    .returned (ESP_LOG .ESP_LOG_ERROR "Channel out of range. Expected value from <1,13> but got %u" w)
  else
    .returned (driverCall (.esp_wifi_set_channel channel .WIFI_SECOND_CHAN_NONE) w).2

/-- An example controller that has been brought up: the flag is set, the saved MAC is
the AP's factory MAC, the radio is in AP+STA mode and the driver answers `ESP_OK`. -/
def World.exampleUp : World :=
  { wifi_init := true
    original_mac_ap := [36, 111, 40, 1, 2, 3]
    drv := { mode := .WIFI_MODE_APSTA, mac_ap := [36, 111, 40, 1, 2, 3],
             mac_sta := [36, 111, 40, 1, 2, 2], channel := 1,
             config_ap := wifi_ap_config_zero, config_sta := wifi_sta_config_zero }
    responses := []
    trace := [] }

/-- Example build-time settings of the management AP: SSID `"mgmt"`, password
`"mgmtadmin"`, one client. -/
def MgmtConfig.example : MgmtConfig :=
  { CONFIG_MGMT_AP_SSID := [109, 103, 109, 116]
    CONFIG_MGMT_AP_PASSWORD := [109, 103, 109, 116, 97, 100, 109, 105, 110]
    CONFIG_MGMT_AP_MAX_CONNECTIONS := 1 }

/-- An example scan record: SSID `"home"` in the 33-byte array, channel 6. -/
def wifi_ap_record_t.example : wifi_ap_record_t :=
  { bssid := [0, 17, 34, 51, 68, 85]
    ssid := [104, 111, 109, 101] ++ List.replicate 29 0
    primary := 6 }

/-- Management AP settings that do not fit the configuration fields: a 65-byte
password and a max-connections value of 300. -/
def MgmtConfig.oversized : MgmtConfig :=
  { CONFIG_MGMT_AP_SSID := [109, 103, 109, 116]
    CONFIG_MGMT_AP_PASSWORD := List.replicate 65 97
    CONFIG_MGMT_AP_MAX_CONNECTIONS := 300 }

/-! ## Sequences of operations -/

/-- One thing that can happen to the controller: a call of a public function, or an
event delivered to the handler. -/
inductive Op
  | ap_start (wifi_config : wifi_ap_config_t)
  | ap_stop
  | mgmt_ap_start
  | sta_connect_to_ap (ap_record : wifi_ap_record_t) (password : Option (List Nat))
  | sta_disconnect
  | set_ap_mac (mac_ap : List Nat)
  | get_ap_mac (mac_ap : List Nat)
  | restore_ap_mac
  | get_sta_mac (mac_sta : List Nat)
  | set_channel (channel : Nat)
  | event (event_base : esp_event_base_t) (event_id : Int)
  deriving DecidableEq, Repr

/-- The operations that open with the initialisation guard. -/
def Op.hasGuard : Op → Bool
  | .ap_start _ => true
  | .mgmt_ap_start => true
  | .sta_connect_to_ap _ _ => true
  | _ => false

/-- Runs one operation. -/
def step (k : MgmtConfig) (op : Op) (w : World) : Outcome :=
  match op with
  | .ap_start c => wifictl_ap_start c w
  | .ap_stop => wifictl_ap_stop w
  | .mgmt_ap_start => wifictl_mgmt_ap_start k w
  | .sta_connect_to_ap r p => wifictl_sta_connect_to_ap r p w
  | .sta_disconnect => wifictl_sta_disconnect w
  | .set_ap_mac m => wifictl_set_ap_mac m w
  | .get_ap_mac b => .returned (wifictl_get_ap_mac b w).2
  | .restore_ap_mac => wifictl_restore_ap_mac w
  | .get_sta_mac b => .returned (wifictl_get_sta_mac b w).2
  | .set_channel c => wifictl_set_channel c w
  | .event b i => .returned (wifi_event_handler b i w)

/-- Runs a sequence of operations, stopping at the first abort. -/
def run (k : MgmtConfig) : List Op → World → Outcome
  | [], w => .returned w
  | op :: ops, w => (step k op w).andThen (run k ops)

/-- The driver request behind an effect, if it is one. -/
def Effect.request : Effect → Option Request
  | .log _ _ => none
  | .call r _ => some r

/-- The requests among a list of effects, in order. -/
def requests (t : List Effect) : List Request := t.filterMap Effect.request

/-- The requests `wifi_init_apsta` makes. -/
def Request.isInit : Request → Bool
  | .esp_netif_init => true
  | .esp_netif_create_default_wifi_ap => true
  | .esp_netif_create_default_wifi_sta => true
  | .esp_wifi_init => true
  | .esp_wifi_set_storage => true
  | .esp_wifi_set_mode _ => true
  | .esp_event_handler_register _ => true
  | .esp_wifi_get_mac _ => true
  | .esp_wifi_start => true
  | _ => false

/-- The number of times the first statement of `wifi_init_apsta` was reached. -/
def initRuns (t : List Effect) : Nat := (requests t).count .esp_netif_init

/-- A controller on which nothing has run yet: both statics hold their initial
values and the driver is in its reset state. -/
def World.boot (mac_ap mac_sta : List Nat) (responses : List esp_err_t) : World :=
  { wifi_init := false
    original_mac_ap := List.replicate 6 0
    drv := { mode := .WIFI_MODE_NULL, mac_ap := mac_ap, mac_sta := mac_sta, channel := 1,
             config_ap := wifi_ap_config_zero, config_sta := wifi_sta_config_zero }
    responses := responses
    trace := [] }

/-- The operations of the C5 example: two spoof/restore cycles, a channel change and a
station disconnect event in between. -/
def Op.spoofCycles : List Op :=
  [ .set_ap_mac [0, 17, 34, 51, 68, 85],
    .restore_ap_mac,
    .set_channel 6,
    .set_ap_mac [2, 2, 2, 2, 2, 2],
    .event .WIFI_EVENT WIFI_EVENT_STA_DISCONNECTED,
    .set_ap_mac [170, 187, 204, 221, 238, 255] ]

/-- The operations of the C6 example: three calls that open with the guard, among
operations that do not. -/
def Op.threeStarts : List Op :=
  [ .set_channel 6,
    .mgmt_ap_start,
    .sta_connect_to_ap wifi_ap_record_t.example none,
    .set_ap_mac [0, 17, 34, 51, 68, 85],
    .ap_start wifi_ap_config_zero,
    .restore_ap_mac ]

/-- The effects added between an earlier world and a later one. -/
def since (w w1 : World) : List Effect := w1.trace.drop w.trace.length

/-- The station configuration `wifictl_sta_connect_to_ap` hands to the driver when it
does not reject the password. -/
def sta_conf_for (ap_record : wifi_ap_record_t) (password : Option (List Nat)) :
    wifi_sta_config_t :=
  match password with
  | some p => { sta_wifi_config ap_record with password := strncpy p 64 }
  | none => sta_wifi_config ap_record

/-- An outcome that kept both statics and did not enter the initialisation routine. -/
def Quiet (w : World) (o : Outcome) : Prop :=
  o.world.wifi_init = w.wifi_init
    ∧ o.world.original_mac_ap = w.original_mac_ap
    ∧ ∃ t, o.world.trace = w.trace ++ t ∧ initRuns t = 0

/-! ## Basic facts -/

theorem requests_append (s t : List Effect) : requests (s ++ t) = requests s ++ requests t := by
  simp [requests]

theorem requests_log (l : esp_log_level_t) (m : String) (t : List Effect) :
    requests (Effect.log l m :: t) = requests t := by
  simp [requests, Effect.request]

theorem requests_call (r : Request) (e : esp_err_t) (t : List Effect) :
    requests (Effect.call r e :: t) = r :: requests t := by
  simp [requests, Effect.request]

theorem requests_nil : requests [] = [] := rfl

/-- A checked driver call followed by more code: the continuation runs when the
driver answers `ESP_OK`, otherwise the run aborts right after the call. -/
theorem check_andThen (req : Request) (w : World) (k : World → Outcome) :
    (ESP_ERROR_CHECK (driverCall req w)).andThen k
      = if w.answer = ESP_OK then
          k { w with responses := w.responses.tail
                     trace := w.trace ++ [Effect.call req ESP_OK]
                     drv := w.drv.accept req }
        else
          .aborted { w with responses := w.responses.tail
                            trace := w.trace ++ [Effect.call req w.answer] } := by
  unfold ESP_ERROR_CHECK driverCall
  by_cases h : w.answer = ESP_OK
  · simp [h, Outcome.andThen]
  · simp [h, Outcome.andThen]

/-- The checked `esp_wifi_get_mac(WIFI_IF_AP, original_mac_ap)` of the initialisation. -/
theorem get_mac_check_andThen (w : World) (k : World → Outcome) :
    (save_original_mac_ap w).andThen k
      = if w.answer = ESP_OK then
          k { w with responses := w.responses.tail
                     trace := w.trace ++ [Effect.call (.esp_wifi_get_mac .WIFI_IF_AP) ESP_OK]
                     original_mac_ap := w.drv.mac_ap }
        else
          .aborted { w with responses := w.responses.tail
                            trace := w.trace ++
                              [Effect.call (.esp_wifi_get_mac .WIFI_IF_AP) w.answer] } := by
  unfold save_original_mac_ap ESP_ERROR_CHECK esp_wifi_get_mac driverCall
  by_cases h : w.answer = ESP_OK
  · simp [h, Outcome.andThen, Driver.accept, Driver.mac]
  · simp [h, Outcome.andThen]

/-- What `wifi_init_apsta` does, whatever the driver answers. -/
theorem wifi_init_apsta_spec (w : World) :
    (wifi_init_apsta w).world.trace = w.trace ++ since w (wifi_init_apsta w).world
      ∧ (∀ r ∈ requests (since w (wifi_init_apsta w).world), r.isInit = true)
      ∧ initRuns (since w (wifi_init_apsta w).world) = 1
      ∧ (wifi_init_apsta w).world.drv.mac_ap = w.drv.mac_ap
      ∧ (wifi_init_apsta w).world.drv.config_ap = w.drv.config_ap
      ∧ (wifi_init_apsta w).world.drv.config_sta = w.drv.config_sta
      ∧ (wifi_init_apsta w).world.drv.channel = w.drv.channel
      ∧ (∀ w1, wifi_init_apsta w = .returned w1 →
            w1.wifi_init = true ∧ w1.original_mac_ap = w.drv.mac_ap
              ∧ w1.drv.mode = .WIFI_MODE_APSTA)
      ∧ (∀ w1, wifi_init_apsta w = .aborted w1 → w1.wifi_init = w.wifi_init) := by
  obtain ⟨wi, om, d, rs, tr⟩ := w
  unfold wifi_init_apsta
  rw [check_andThen]
  split_ifs with h1
  swap
  · simp [Outcome.world, since, initRuns, requests_append, requests_call, requests_nil,
      Request.isInit, Driver.accept, List.append_assoc]
  simp only [driverCallVoid]
  rw [check_andThen]
  split_ifs with h2
  swap
  · simp [Outcome.world, since, initRuns, requests_append, requests_call, requests_nil,
      Request.isInit, Driver.accept, List.append_assoc]
  rw [check_andThen]
  split_ifs with h3
  swap
  · simp [Outcome.world, since, initRuns, requests_append, requests_call, requests_nil,
      Request.isInit, Driver.accept, List.append_assoc]
  rw [check_andThen]
  split_ifs with h4
  swap
  · simp [Outcome.world, since, initRuns, requests_append, requests_call, requests_nil,
      Request.isInit, Driver.accept, List.append_assoc]
  rw [check_andThen]
  split_ifs with h5
  swap
  · simp [Outcome.world, since, initRuns, requests_append, requests_call, requests_nil,
      Request.isInit, Driver.accept, List.append_assoc]
  rw [get_mac_check_andThen]
  split_ifs with h6
  swap
  · simp [Outcome.world, since, initRuns, requests_append, requests_call, requests_nil,
      Request.isInit, Driver.accept, List.append_assoc]
  rw [check_andThen]
  split_ifs with h7
  swap
  · simp [Outcome.world, since, initRuns, requests_append, requests_call, requests_nil,
      Request.isInit, Driver.accept, List.append_assoc]
  simp [Outcome.world, since, initRuns, requests_append, requests_call, requests_nil,
    Request.isInit, Driver.accept, List.append_assoc]

/-- When the driver accepts its seven checked calls, `wifi_init_apsta` returns, with
the AP MAC saved, the mode set and the flag raised. -/
theorem wifi_init_apsta_ok (w : World)
    (h : ∀ i, i < 7 → w.responses.getD i ESP_OK = ESP_OK) :
    wifi_init_apsta w = .returned
      { wifi_init := true
        original_mac_ap := w.drv.mac_ap
        drv := { w.drv with mode := .WIFI_MODE_APSTA }
        responses := w.responses.drop 7
        trace := w.trace ++
          [Effect.call .esp_netif_init ESP_OK,
           Effect.call .esp_netif_create_default_wifi_ap ESP_OK,
           Effect.call .esp_netif_create_default_wifi_sta ESP_OK,
           Effect.call .esp_wifi_init ESP_OK,
           Effect.call .esp_wifi_set_storage ESP_OK,
           Effect.call (.esp_wifi_set_mode .WIFI_MODE_APSTA) ESP_OK,
           Effect.call (.esp_event_handler_register .WIFI_EVENT) ESP_OK,
           Effect.call (.esp_wifi_get_mac .WIFI_IF_AP) ESP_OK,
           Effect.call .esp_wifi_start ESP_OK] } := by
  obtain ⟨wi, om, d, rs, tr⟩ := w
  have h0 := h 0 (by norm_num)
  have h1 := h 1 (by norm_num)
  have h2 := h 2 (by norm_num)
  have h3 := h 3 (by norm_num)
  have h4 := h 4 (by norm_num)
  have h5 := h 5 (by norm_num)
  have h6 := h 6 (by norm_num)
  unfold wifi_init_apsta
  simp only [check_andThen, get_mac_check_andThen, driverCallVoid, World.answer]
  rcases rs with _ | ⟨e0, _ | ⟨e1, _ | ⟨e2, _ | ⟨e3, _ | ⟨e4, _ | ⟨e5, _ | ⟨e6, rs⟩⟩⟩⟩⟩⟩⟩ <;>
    simp_all [Driver.accept, List.append_assoc]

/-- What the initialisation guard does, whatever the driver answers. -/
theorem init_guard_spec (w : World) :
    (init_guard w).world.trace = w.trace ++ since w (init_guard w).world
      ∧ (∀ r ∈ requests (since w (init_guard w).world), r.isInit = true)
      ∧ initRuns (since w (init_guard w).world) = (if w.wifi_init then 0 else 1)
      ∧ (init_guard w).world.drv.mac_ap = w.drv.mac_ap
      ∧ (init_guard w).world.drv.config_ap = w.drv.config_ap
      ∧ (init_guard w).world.drv.config_sta = w.drv.config_sta
      ∧ (init_guard w).world.drv.channel = w.drv.channel
      ∧ (∀ w1, init_guard w = .returned w1 →
            w1.wifi_init = true
              ∧ (w.wifi_init = true → w1 = w)
              ∧ (w.wifi_init = false → w1.original_mac_ap = w.drv.mac_ap))
      ∧ (∀ w1, init_guard w = .aborted w1 → w.wifi_init = false ∧ w1.wifi_init = false) := by
  unfold init_guard
  cases hw : w.wifi_init
  · have hs := wifi_init_apsta_spec w
    simp only [Bool.not_false, if_true]
    obtain ⟨a, b, c, d, e, f, g, h, i⟩ := hs
    refine ⟨a, b, by simpa using c, d, e, f, g, ?_, ?_⟩
    · intro w1 h1
      have := h w1 h1
      simp [this]
    · intro w1 h1
      have := i w1 h1
      simp [this, hw]
  · simp [Outcome.world, since, initRuns, requests_nil, hw]

/-- On an initialised controller the guard does nothing. -/
theorem init_guard_of_init (w : World) (h : w.wifi_init = true) :
    init_guard w = .returned w := by
  simp [init_guard, h]

/-- Logging does not touch the flag. -/
theorem ESP_LOG_wifi_init (l : esp_log_level_t) (m : String) (w : World) :
    (ESP_LOG l m w).wifi_init = w.wifi_init := rfl

/-- The statements after the guard of `wifictl_ap_start`, when the driver rejects the
configuration. -/
theorem ap_apply_rejected (conf : wifi_ap_config_t) (w : World) (h : w.answer ≠ ESP_OK) :
    ap_apply conf w = .returned
      { w with
          responses := w.responses.tail
          trace := w.trace ++
            [Effect.call (.esp_wifi_set_config_ap conf) w.answer,
             Effect.log .ESP_LOG_ERROR "Failed to set AP config: %s"] } := by
  simp [ap_apply, driverCall, ESP_LOG, h, List.append_assoc]

/-- The statements after the guard of `wifictl_ap_start`, when the driver accepts the
configuration. -/
theorem ap_apply_accepted (conf : wifi_ap_config_t) (w : World) (h : w.answer = ESP_OK) :
    ap_apply conf w = .returned
      { w with
          drv := { w.drv with config_ap := conf }
          responses := w.responses.tail
          trace := w.trace ++
            [Effect.call (.esp_wifi_set_config_ap conf) ESP_OK,
             Effect.log .ESP_LOG_INFO "AP started with SSID=%s"] } := by
  simp [ap_apply, driverCall, ESP_LOG, h, List.append_assoc, Driver.accept]

/-- The effects between two worlds, once the later trace is known to extend the
earlier one. -/
theorem since_eq (w w1 : World) (t : List Effect) (h : w1.trace = w.trace ++ t) :
    since w w1 = t := by
  simp [since, h]

/-- A string that fits is copied whole by `strncpy` and padded with NUL bytes. -/
theorem strncpy_of_le (src : List Nat) (n : Nat) (h : strlen src ≤ n) :
    strncpy src n = cstr src ++ List.replicate (n - strlen src) 0 := by
  unfold strncpy strlen at *
  rw [List.take_of_length_le h]

/-- `strncpy` always writes exactly `n` bytes. -/
theorem strncpy_length (src : List Nat) (n : Nat) : (strncpy src n).length = n := by
  unfold strncpy
  simp only [List.length_append, List.length_replicate, List.length_take]
  omega

/-- `memcpy` writes exactly `n` bytes. -/
theorem memcpy_length (src : List Nat) (n : Nat) : (memcpy src n).length = n := by
  simp [memcpy]

/-- Byte `i` written by `memcpy` is byte `i` of the source. -/
theorem memcpy_getD (src : List Nat) (n i : Nat) (h : i < n) :
    (memcpy src n).getD i 0 = src.getD i 0 := by
  simp [memcpy, List.getD_eq_getElem?_getD, h]

/-- With a password that is too long, `wifictl_sta_connect_to_ap` is its guard followed
by the error line. -/
theorem sta_connect_too_long_eq (ap_record : wifi_ap_record_t) (p : List Nat) (w : World)
    (h : 63 < strlen p) :
    wifictl_sta_connect_to_ap ap_record (some p) w
      = (init_guard (ESP_LOG .ESP_LOG_DEBUG "Connecting STA to AP..." w)).andThen fun w1 =>
          .returned (ESP_LOG .ESP_LOG_ERROR "Password is too long. Max supported length is 63" w1) := by
  unfold wifictl_sta_connect_to_ap
  simp [h]

/-- The statements of `wifictl_sta_connect_to_ap` after the password check, when the
driver accepts the station configuration: the configuration takes effect and one
connect request follows, whose own answer decides between return and abort. -/
theorem sta_apply_and_connect_accepted (conf : wifi_sta_config_t) (w : World)
    (h : w.answer = ESP_OK) :
    (sta_apply_and_connect conf w).world =
        { w with
            drv := { w.drv with config_sta := conf }
            responses := w.responses.tail.tail
            trace := w.trace ++
              [Effect.log .ESP_LOG_DEBUG ".ssid=%s",
               Effect.call (.esp_wifi_set_config_sta conf) ESP_OK,
               Effect.call .esp_wifi_connect (w.responses.tail.headD ESP_OK)] }
      ∧ (w.responses.tail.headD ESP_OK = ESP_OK →
          ∃ w1, sta_apply_and_connect conf w = .returned w1) := by
  have h1 : (ESP_LOG .ESP_LOG_DEBUG ".ssid=%s" w).answer = ESP_OK := h
  unfold sta_apply_and_connect
  simp only [driverCall, h1, ESP_ERROR_CHECK]
  constructor
  · split_ifs <;>
      simp_all [Outcome.world, ESP_LOG, World.answer, Driver.accept, List.append_assoc]
  · intro h2
    split_ifs <;>
      simp_all [Outcome.world, ESP_LOG, World.answer, Driver.accept, List.append_assoc]

/-- With an absent password or one that fits, `wifictl_sta_connect_to_ap` is its guard
followed by the apply-and-connect tail. -/
theorem sta_connect_accepted_eq (ap_record : wifi_ap_record_t) (password : Option (List Nat))
    (w : World) (hp : ∀ p, password = some p → strlen p ≤ 63) :
    wifictl_sta_connect_to_ap ap_record password w
      = (init_guard (ESP_LOG .ESP_LOG_DEBUG "Connecting STA to AP..." w)).andThen
          (sta_apply_and_connect (sta_conf_for ap_record password)) := by
  unfold wifictl_sta_connect_to_ap sta_conf_for
  cases password with
  | none => rfl
  | some p =>
    have := hp p rfl
    have hn : ¬ (strlen p > 63) := by omega
    simp only [hn, if_false]

/-- The statements after the guard of `wifictl_ap_start` always return, and issue the
AP config-set as their only request. -/
theorem ap_apply_spec (conf : wifi_ap_config_t) (w : World) :
    (∃ w1, ap_apply conf w = .returned w1)
      ∧ requests (since w (ap_apply conf w).world) = [.esp_wifi_set_config_ap conf]
      ∧ (w.answer = ESP_OK → (ap_apply conf w).world.drv.config_ap = conf) := by
  by_cases h : w.answer = ESP_OK
  · rw [ap_apply_accepted conf w h]
    simp [Outcome.world, since, requests_log, requests_call, requests_nil]
  · rw [ap_apply_rejected conf w h]
    simp [Outcome.world, since, requests_log, requests_call, requests_nil, h]

/-- The guard returns whenever the driver accepts the seven checked calls of the
initialisation. -/
theorem init_guard_returns (w : World)
    (h : ∀ i, i < 7 → w.responses.getD i ESP_OK = ESP_OK) :
    ∃ w1, init_guard w = .returned w1 ∧ w1.wifi_init = true := by
  unfold init_guard
  cases hw : w.wifi_init
  · simp only [Bool.not_false, if_true]
    exact ⟨_, wifi_init_apsta_ok w h, rfl⟩
  · exact ⟨w, by simp, hw⟩

/-! ## Frames: what a piece of code leaves alone -/

theorem initRuns_append (s t : List Effect) : initRuns (s ++ t) = initRuns s + initRuns t := by
  simp [initRuns, requests_append]

theorem initRuns_log (l : esp_log_level_t) (m : String) (t : List Effect) :
    initRuns (Effect.log l m :: t) = initRuns t := by
  simp [initRuns, requests_log]

theorem initRuns_nil : initRuns [] = 0 := rfl

theorem quiet_ap_apply (conf : wifi_ap_config_t) (w : World) : Quiet w (ap_apply conf w) := by
  by_cases h : w.answer = ESP_OK
  · rw [ap_apply_accepted conf w h]
    exact ⟨rfl, rfl, _, rfl, by simp [initRuns, requests_log, requests_call, requests_nil]⟩
  · rw [ap_apply_rejected conf w h]
    exact ⟨rfl, rfl, _, rfl, by simp [initRuns, requests_log, requests_call, requests_nil]⟩

theorem quiet_sta_apply_and_connect (conf : wifi_sta_config_t) (w : World) :
    Quiet w (sta_apply_and_connect conf w) := by
  unfold sta_apply_and_connect ESP_ERROR_CHECK driverCall ESP_LOG
  simp only []
  split_ifs <;>
    exact ⟨rfl, rfl, _, by simp only [Outcome.world, List.append_assoc]; rfl,
      by simp [initRuns, requests_log, requests_call, requests_nil, requests_append]⟩

theorem quiet_sta_tail (ap_record : wifi_ap_record_t) (password : Option (List Nat))
    (w : World) :
    Quiet w
      (match password with
       | some p =>
         if strlen p > 63 then
           .returned (ESP_LOG .ESP_LOG_ERROR "Password is too long. Max supported length is 63" w)
         else
           sta_apply_and_connect { sta_wifi_config ap_record with password := strncpy p 64 } w
       | none => sta_apply_and_connect (sta_wifi_config ap_record) w) := by
  cases password with
  | none => exact quiet_sta_apply_and_connect _ w
  | some p =>
    simp only []
    split_ifs
    · exact ⟨rfl, rfl, _, rfl, by simp [initRuns, requests_log, requests_nil]⟩
    · exact quiet_sta_apply_and_connect _ w

/-- A function made of a log line, the guard, and a quiet tail: it enters the
initialisation routine exactly when the flag is down; with the flag up it keeps both
statics; with the flag down, a return means the flag is up and the saved MAC is the MAC
the AP interface had on entry. -/
theorem guarded_frame (l : esp_log_level_t) (m : String) (tail : World → Outcome) (w : World)
    (ht : ∀ w1, Quiet w1 (tail w1)) :
    (∃ t, ((init_guard (ESP_LOG l m w)).andThen tail).world.trace = w.trace ++ t
        ∧ initRuns t = (if w.wifi_init then 0 else 1))
      ∧ (w.wifi_init = true →
          ((init_guard (ESP_LOG l m w)).andThen tail).world.wifi_init = true
            ∧ ((init_guard (ESP_LOG l m w)).andThen tail).world.original_mac_ap
                = w.original_mac_ap)
      ∧ (w.wifi_init = false → ∀ w1,
          (init_guard (ESP_LOG l m w)).andThen tail = .returned w1 →
            w1.wifi_init = true ∧ w1.original_mac_ap = w.drv.mac_ap) := by
  obtain ⟨htr, -, hruns, -, -, -, -, hret, habort⟩ := init_guard_spec (ESP_LOG l m w)
  have hlog : (ESP_LOG l m w).trace = w.trace ++ [Effect.log l m] := rfl
  have hflag : (ESP_LOG l m w).wifi_init = w.wifi_init := rfl
  cases hg : init_guard (ESP_LOG l m w) with
  | returned w1 =>
    rw [hg] at htr hruns
    simp only [Outcome.world] at htr hruns
    obtain ⟨hf, hom, t, htt, hti⟩ := ht w1
    obtain ⟨h1, h2, h3⟩ := hret w1 hg
    simp only [Outcome.andThen]
    refine ⟨⟨Effect.log l m :: (since (ESP_LOG l m w) w1 ++ t), ?_, ?_⟩, ?_, ?_⟩
    · rw [htt, htr, hlog]
      simp [List.append_assoc]
    · rw [initRuns_log, initRuns_append, hruns, hti, hflag]
      simp
    · intro hi
      have hw1 : w1 = ESP_LOG l m w := h2 (by rw [hflag]; exact hi)
      rw [hf, hom, h1, hw1]
      exact ⟨rfl, rfl⟩
    · intro hi w2 h2eq
      have hd : (ESP_LOG l m w).drv.mac_ap = w.drv.mac_ap := rfl
      have hw2 : (tail w1).world = w2 := by rw [h2eq]; rfl
      rw [← hw2, hf, hom, h1, h3 (by rw [hflag]; exact hi), hd]
      exact ⟨rfl, rfl⟩
  | aborted w1 =>
    rw [hg] at htr hruns
    simp only [Outcome.world] at htr hruns
    obtain ⟨h1, h2⟩ := habort w1 hg
    rw [hflag] at h1
    simp only [Outcome.andThen]
    refine ⟨⟨Effect.log l m :: since (ESP_LOG l m w) w1, ?_, ?_⟩, ?_, ?_⟩
    · simp only [Outcome.world]
      rw [htr, hlog]
      simp [List.append_assoc]
    · rw [initRuns_log, hruns, hflag]
    · intro hi
      rw [h1] at hi
      exact absurd hi (by decide)
    · intro _ w2 h2eq
      cases h2eq

/-- Every operation without the guard is quiet. -/
theorem quiet_step (k : MgmtConfig) (op : Op) (w : World) (h : op.hasGuard = false) :
    Quiet w (step k op w) := by
  cases op with
  | ap_start c => simp [Op.hasGuard] at h
  | mgmt_ap_start => simp [Op.hasGuard] at h
  | sta_connect_to_ap r p => simp [Op.hasGuard] at h
  | ap_stop =>
    simp only [step, wifictl_ap_stop, ESP_ERROR_CHECK, driverCall, ESP_LOG, Outcome.andThen]
    split_ifs <;>
      exact ⟨rfl, rfl, _, by simp only [Outcome.world, List.append_assoc]; rfl,
        by simp [initRuns, requests_log, requests_call, requests_nil, requests_append]⟩
  | sta_disconnect =>
    simp only [step, wifictl_sta_disconnect, ESP_ERROR_CHECK, driverCall]
    split_ifs <;>
      exact ⟨rfl, rfl, _, rfl, by simp [initRuns, requests_call, requests_nil]⟩
  | set_ap_mac mac =>
    simp only [step, wifictl_set_ap_mac, ESP_ERROR_CHECK, driverCall, ESP_LOG]
    split_ifs <;>
      exact ⟨rfl, rfl, _, by simp only [Outcome.world, List.append_assoc]; rfl,
        by simp [initRuns, requests_log, requests_call, requests_nil, requests_append]⟩
  | get_ap_mac b =>
    exact ⟨rfl, rfl, _, rfl, by simp [initRuns, requests_call, requests_nil]⟩
  | restore_ap_mac =>
    simp only [step, wifictl_restore_ap_mac, ESP_ERROR_CHECK, driverCall, ESP_LOG]
    split_ifs <;>
      exact ⟨rfl, rfl, _, by simp only [Outcome.world, List.append_assoc]; rfl,
        by simp [initRuns, requests_log, requests_call, requests_nil, requests_append]⟩
  | get_sta_mac b =>
    exact ⟨rfl, rfl, _, rfl, by simp [initRuns, requests_call, requests_nil]⟩
  | set_channel c =>
    simp only [step, wifictl_set_channel]
    split_ifs
    · exact ⟨rfl, rfl, _, rfl, by simp [initRuns, requests_log, requests_nil]⟩
    · exact ⟨rfl, rfl, _, rfl, by simp [initRuns, requests_call, requests_nil]⟩
  | event b i =>
    simp only [step, wifi_event_handler, driverCall, ESP_LOG]
    split_ifs <;>
      first
      | exact ⟨rfl, rfl, [], (List.append_nil _).symm, rfl⟩
      | exact ⟨rfl, rfl, _, by simp only [Outcome.world, List.append_assoc]; rfl,
          by simp [initRuns, requests_log, requests_call, requests_nil, requests_append]⟩

/-- What one operation does to the flag, the saved MAC and the count of
initialisation runs. -/
theorem step_frame (k : MgmtConfig) (op : Op) (w : World) :
    (∃ t, (step k op w).world.trace = w.trace ++ t
        ∧ initRuns t = (if op.hasGuard = true ∧ w.wifi_init = false then 1 else 0))
      ∧ (w.wifi_init = true →
          (step k op w).world.wifi_init = true
            ∧ (step k op w).world.original_mac_ap = w.original_mac_ap)
      ∧ (w.wifi_init = false → op.hasGuard = false →
          (step k op w).world.wifi_init = false
            ∧ (step k op w).world.original_mac_ap = w.original_mac_ap)
      ∧ (w.wifi_init = false → op.hasGuard = true → ∀ w1, step k op w = .returned w1 →
          w1.wifi_init = true ∧ w1.original_mac_ap = w.drv.mac_ap) := by
  have guarded : ∀ (l : esp_log_level_t) (m : String) (tail : World → Outcome),
      (∀ w1, Quiet w1 (tail w1)) → op.hasGuard = true →
      step k op w = (init_guard (ESP_LOG l m w)).andThen tail →
      (∃ t, (step k op w).world.trace = w.trace ++ t
        ∧ initRuns t = (if op.hasGuard = true ∧ w.wifi_init = false then 1 else 0))
      ∧ (w.wifi_init = true →
          (step k op w).world.wifi_init = true
            ∧ (step k op w).world.original_mac_ap = w.original_mac_ap)
      ∧ (w.wifi_init = false → op.hasGuard = false →
          (step k op w).world.wifi_init = false
            ∧ (step k op w).world.original_mac_ap = w.original_mac_ap)
      ∧ (w.wifi_init = false → op.hasGuard = true → ∀ w1, step k op w = .returned w1 →
          w1.wifi_init = true ∧ w1.original_mac_ap = w.drv.mac_ap) := by
    intro l m tail ht hg he
    obtain ⟨⟨t, h1, h2⟩, h3, h4⟩ := guarded_frame l m tail w ht
    rw [he]
    refine ⟨⟨t, h1, ?_⟩, h3, ?_, ?_⟩
    · rw [h2]
      cases w.wifi_init <;> simp [hg]
    · intro _ hn
      rw [hg] at hn
      exact absurd hn (by decide)
    · intro hi _ w1 hw1
      exact h4 hi w1 hw1
  by_cases hg : op.hasGuard = true
  · cases op with
    | ap_start c => exact guarded _ _ (ap_apply c) (quiet_ap_apply c) hg rfl
    | mgmt_ap_start =>
      exact guarded _ _ (ap_apply (mgmt_wifi_config k)) (quiet_ap_apply _) hg rfl
    | sta_connect_to_ap r p => exact guarded _ _ _ (quiet_sta_tail r p) hg rfl
    | ap_stop => simp [Op.hasGuard] at hg
    | sta_disconnect => simp [Op.hasGuard] at hg
    | set_ap_mac mac => simp [Op.hasGuard] at hg
    | get_ap_mac b => simp [Op.hasGuard] at hg
    | restore_ap_mac => simp [Op.hasGuard] at hg
    | get_sta_mac b => simp [Op.hasGuard] at hg
    | set_channel c => simp [Op.hasGuard] at hg
    | event b i => simp [Op.hasGuard] at hg
  · have hg0 : op.hasGuard = false := by simpa using hg
    obtain ⟨hf, hom, t, ht1, ht2⟩ := quiet_step k op w hg0
    refine ⟨⟨t, ht1, ?_⟩, ?_, ?_, ?_⟩
    · rw [ht2]
      simp [hg0]
    · intro hi
      exact ⟨by rw [hf, hi], hom⟩
    · intro hi _
      exact ⟨by rw [hf, hi], hom⟩
    · intro _ h1
      exact absurd h1 hg

/-- Once the flag is up, no sequence of operations lowers it or rewrites the saved MAC. -/
theorem run_keeps_statics (k : MgmtConfig) (ops : List Op) :
    ∀ w : World, w.wifi_init = true →
      (run k ops w).world.wifi_init = true
        ∧ (run k ops w).world.original_mac_ap = w.original_mac_ap := by
  induction ops with
  | nil => intro w h; exact ⟨h, rfl⟩
  | cons op ops ih =>
    intro w h
    obtain ⟨-, h1, -, -⟩ := step_frame k op w
    obtain ⟨hf, hom⟩ := h1 h
    simp only [run]
    cases hs : step k op w with
    | returned w1 =>
      rw [hs] at hf hom
      simp only [Outcome.world] at hf hom
      simp only [Outcome.andThen]
      obtain ⟨a, b⟩ := ih w1 hf
      exact ⟨a, by rw [b, hom]⟩
    | aborted w1 =>
      rw [hs] at hf hom
      exact ⟨hf, hom⟩

/-- Along any sequence of operations the initialisation routine is entered at most once,
and in a state that was returned to the caller the flag is up exactly when it has been
entered. -/
theorem run_initRuns (k : MgmtConfig) (ops : List Op) :
    ∀ w : World, initRuns w.trace = (if w.wifi_init then 1 else 0) →
      initRuns (run k ops w).world.trace ≤ 1
        ∧ (∀ w1, run k ops w = .returned w1 →
            initRuns w1.trace = (if w1.wifi_init then 1 else 0)) := by
  induction ops with
  | nil =>
    intro w h
    refine ⟨?_, ?_⟩
    · simp only [run, Outcome.world, h]
      split_ifs <;> simp
    · intro w1 h1
      simp only [run, Outcome.returned.injEq] at h1
      rw [← h1]
      exact h
  | cons op ops ih =>
    intro w h
    obtain ⟨⟨t, ht1, ht2⟩, h1, h2, h3⟩ := step_frame k op w
    simp only [run]
    cases hs : step k op w with
    | returned w1 =>
      rw [hs] at ht1 h1 h2
      simp only [Outcome.world] at ht1 h1 h2
      simp only [Outcome.andThen]
      apply ih w1
      rw [ht1, initRuns_append, h, ht2]
      cases hi : w.wifi_init
      · cases hg : op.hasGuard
        · have := (h2 hi hg).1
          simp [this]
        · have := (h3 hi hg w1 hs).1
          simp [this]
      · have := (h1 hi).1
        simp [this]
    | aborted w1 =>
      rw [hs] at ht1
      simp only [Outcome.world] at ht1
      simp only [Outcome.andThen, Outcome.world]
      refine ⟨?_, ?_⟩
      · rw [ht1, initRuns_append, h, ht2]
        cases hi : w.wifi_init <;> simp
        split_ifs <;> simp
      · intro w2 h2eq
        cases h2eq

/-- The two outcomes of `wifictl_restore_ap_mac`. -/
theorem wifictl_restore_ap_mac_eq (w : World) :
    wifictl_restore_ap_mac w
      = if w.answer = ESP_OK then
          .returned
            { w with
                drv := { w.drv with mac_ap := w.original_mac_ap }
                responses := w.responses.tail
                trace := w.trace ++
                  [Effect.log .ESP_LOG_DEBUG "Restoring original AP MAC address...",
                   Effect.call (.esp_wifi_set_mac .WIFI_IF_AP w.original_mac_ap) ESP_OK] }
        else
          .aborted
            { w with
                responses := w.responses.tail
                trace := w.trace ++
                  [Effect.log .ESP_LOG_DEBUG "Restoring original AP MAC address...",
                   Effect.call (.esp_wifi_set_mac .WIFI_IF_AP w.original_mac_ap) w.answer] } := by
  have ha : (ESP_LOG .ESP_LOG_DEBUG "Restoring original AP MAC address..." w).answer
      = w.answer := rfl
  unfold wifictl_restore_ap_mac ESP_ERROR_CHECK driverCall
  simp only [ha]
  by_cases h : w.answer = ESP_OK
  · simp [h, ESP_LOG, Driver.accept, List.append_assoc]
  · simp [h, ESP_LOG, List.append_assoc]

/-! ## Theorems -/

/-- C1 (as written, refuted): on the example controller `wifictl_sta_disconnect()`
returns, and the station-disconnected event delivered right after it still issues a
connect request. -/
theorem explicit_disconnect_event_reconnects :
    ∃ w1, wifictl_sta_disconnect World.exampleUp = .returned w1
      ∧ Request.esp_wifi_connect ∈
          requests (since w1 (wifi_event_handler .WIFI_EVENT WIFI_EVENT_STA_DISCONNECTED w1)) := by
  refine ⟨_, rfl, ?_⟩
  decide

/-- C1 (amended): every station-disconnected Wi-Fi event delivered to the handler
issues exactly one connect request and no other request, whatever the state; in
particular this holds in the state an explicit `wifictl_sta_disconnect()` leaves behind.
The handler keeps no record of explicit disconnects: it changes neither static, and
no other event makes it issue a request. -/
theorem sta_disconnected_event_always_reconnects (w : World) :
    requests (since w (wifi_event_handler .WIFI_EVENT WIFI_EVENT_STA_DISCONNECTED w))
        = [.esp_wifi_connect]
      ∧ requests (since (wifictl_sta_disconnect w).world
            (wifi_event_handler .WIFI_EVENT WIFI_EVENT_STA_DISCONNECTED
              (wifictl_sta_disconnect w).world)) = [.esp_wifi_connect]
      ∧ requests (since w (wifictl_sta_disconnect w).world) = [.esp_wifi_disconnect]
      ∧ (wifictl_sta_disconnect w).world.wifi_init = w.wifi_init
      ∧ (wifictl_sta_disconnect w).world.original_mac_ap = w.original_mac_ap
      ∧ (∀ b i, (wifi_event_handler b i w).wifi_init = w.wifi_init
            ∧ (wifi_event_handler b i w).original_mac_ap = w.original_mac_ap
            ∧ (¬ (b = .WIFI_EVENT ∧ i = WIFI_EVENT_STA_DISCONNECTED) →
                requests (since w (wifi_event_handler b i w)) = [])) := by
  have key : ∀ v : World,
      requests (since v (wifi_event_handler .WIFI_EVENT WIFI_EVENT_STA_DISCONNECTED v))
        = [.esp_wifi_connect] := by
    intro v
    simp [wifi_event_handler, WIFI_EVENT_STA_DISCONNECTED, WIFI_EVENT_AP_START,
      WIFI_EVENT_AP_STOP, WIFI_EVENT_STA_START, WIFI_EVENT_STA_CONNECTED, driverCall, ESP_LOG,
      since, requests_log, requests_call, requests_nil]
  refine ⟨key w, key _, ?_, ?_, ?_, ?_⟩
  · unfold wifictl_sta_disconnect ESP_ERROR_CHECK driverCall
    split_ifs <;> simp [Outcome.world, since, requests_call, requests_nil]
  · unfold wifictl_sta_disconnect ESP_ERROR_CHECK driverCall
    split_ifs <;> simp [Outcome.world]
  · unfold wifictl_sta_disconnect ESP_ERROR_CHECK driverCall
    split_ifs <;> simp [Outcome.world]
  · intro b i
    unfold wifi_event_handler
    refine ⟨?_, ?_, ?_⟩
    · split_ifs <;> simp [ESP_LOG, driverCall]
    · split_ifs <;> simp [ESP_LOG, driverCall]
    · intro hne
      split_ifs <;>
        simp_all [ESP_LOG, driverCall, since, requests_log, requests_call, requests_nil,
          requests_append]

/-- C2: for every target record and every password longer than 63 bytes,
`wifictl_sta_connect_to_ap` issues no connect request and no station config-set, and the
station configuration in effect is untouched.  Whenever the initialisation guard
returns (always, on an initialised controller) the call returns right after logging the
"Password is too long" error; the only other outcome is the fatal abort inside the
initialisation itself, which cannot happen when the driver accepts the checked calls of
the initialisation. -/
theorem wifictl_sta_connect_password_too_long (ap_record : wifi_ap_record_t) (p : List Nat)
    (w : World) (h : 63 < strlen p) :
    Request.esp_wifi_connect ∉
        requests (since w (wifictl_sta_connect_to_ap ap_record (some p) w).world)
      ∧ (∀ c, Request.esp_wifi_set_config_sta c ∉
          requests (since w (wifictl_sta_connect_to_ap ap_record (some p) w).world))
      ∧ (wifictl_sta_connect_to_ap ap_record (some p) w).world.drv.config_sta
          = w.drv.config_sta
      ∧ (∀ w1, init_guard (ESP_LOG .ESP_LOG_DEBUG "Connecting STA to AP..." w) = .returned w1 →
          wifictl_sta_connect_to_ap ap_record (some p) w = .returned
            { w1 with trace := w1.trace ++
                [Effect.log .ESP_LOG_ERROR "Password is too long. Max supported length is 63"] })
      ∧ (∀ w1, init_guard (ESP_LOG .ESP_LOG_DEBUG "Connecting STA to AP..." w) = .aborted w1 →
          wifictl_sta_connect_to_ap ap_record (some p) w = .aborted w1)
      ∧ (w.wifi_init = true →
          wifictl_sta_connect_to_ap ap_record (some p) w = .returned
            { w with trace := w.trace ++
                [Effect.log .ESP_LOG_DEBUG "Connecting STA to AP...",
                 Effect.log .ESP_LOG_ERROR
                   "Password is too long. Max supported length is 63"] })
      ∧ ((∀ i, i < 7 → w.responses.getD i ESP_OK = ESP_OK) →
          ∃ w1 w2,
            init_guard (ESP_LOG .ESP_LOG_DEBUG "Connecting STA to AP..." w) = .returned w1
              ∧ wifictl_sta_connect_to_ap ap_record (some p) w = .returned w2
              ∧ w2.trace = w1.trace ++
                  [Effect.log .ESP_LOG_ERROR
                    "Password is too long. Max supported length is 63"]) := by
  have heq := sta_connect_too_long_eq ap_record p w h
  obtain ⟨ht, hinit, -, -, -, hsta, -, -, -⟩ :=
    init_guard_spec (ESP_LOG .ESP_LOG_DEBUG "Connecting STA to AP..." w)
  have hreq : ∀ r ∈ requests (since w (wifictl_sta_connect_to_ap ap_record (some p) w).world),
      r.isInit = true := by
    intro r hr
    rw [heq] at hr
    cases hg : init_guard (ESP_LOG .ESP_LOG_DEBUG "Connecting STA to AP..." w) with
    | returned w1 =>
      rw [hg] at hr ht hinit
      simp only [Outcome.andThen, Outcome.world, ESP_LOG] at hr ht hinit
      rw [since_eq w _ (Effect.log .ESP_LOG_DEBUG "Connecting STA to AP..." ::
            (since (ESP_LOG .ESP_LOG_DEBUG "Connecting STA to AP..." w) w1 ++
              [Effect.log .ESP_LOG_ERROR "Password is too long. Max supported length is 63"]))
          (by simp [ht, ESP_LOG, List.append_assoc])] at hr
      simp only [requests_log, requests_append, requests_nil, List.append_nil] at hr
      exact hinit r hr
    | aborted w1 =>
      rw [hg] at hr ht hinit
      simp only [Outcome.andThen, Outcome.world, ESP_LOG] at hr ht hinit
      rw [since_eq w _ (Effect.log .ESP_LOG_DEBUG "Connecting STA to AP..." ::
            since (ESP_LOG .ESP_LOG_DEBUG "Connecting STA to AP..." w) w1)
          (by simp [ht, ESP_LOG, List.append_assoc])] at hr
      simp only [requests_log] at hr
      exact hinit r hr
  refine ⟨?_, ?_, ?_, ?_, ?_, ?_, ?_⟩
  · intro hc
    have := hreq _ hc
    simp [Request.isInit] at this
  · intro c hc
    have := hreq _ hc
    simp [Request.isInit] at this
  · rw [heq]
    cases hg : init_guard (ESP_LOG .ESP_LOG_DEBUG "Connecting STA to AP..." w) with
    | returned w1 =>
      rw [hg] at hsta
      simpa [Outcome.andThen, Outcome.world, ESP_LOG] using hsta
    | aborted w1 =>
      rw [hg] at hsta
      simpa [Outcome.andThen, Outcome.world, ESP_LOG] using hsta
  · intro w1 hg
    rw [heq, hg]
    rfl
  · intro w1 hg
    rw [heq, hg]
    rfl
  · intro hi
    rw [heq, init_guard_of_init _ (by simpa [ESP_LOG_wifi_init] using hi)]
    simp [Outcome.andThen, ESP_LOG, List.append_assoc]
  · intro hok
    obtain ⟨w1, hg, -⟩ :=
      init_guard_returns (ESP_LOG .ESP_LOG_DEBUG "Connecting STA to AP..." w) hok
    refine ⟨w1,
      ESP_LOG .ESP_LOG_ERROR "Password is too long. Max supported length is 63" w1,
      hg, ?_, rfl⟩
    rw [heq, hg]
    rfl

/-- C2 at a concrete input: a 64-byte password on the example controller. -/
theorem wifictl_sta_connect_password_too_long_witness :
    63 < strlen (List.replicate 64 97)
      ∧ wifictl_sta_connect_to_ap wifi_ap_record_t.example (some (List.replicate 64 97))
          World.exampleUp
        = .returned
            { World.exampleUp with trace :=
                [Effect.log .ESP_LOG_DEBUG "Connecting STA to AP...",
                 Effect.log .ESP_LOG_ERROR
                   "Password is too long. Max supported length is 63"] } :=
  ⟨by decide,
   (wifictl_sta_connect_password_too_long wifi_ap_record_t.example (List.replicate 64 97)
      World.exampleUp (by decide)).2.2.2.2.2.1 rfl⟩

/-- C3: for every channel value outside 1..13 (0, or anything above 13, which covers
every 8-bit value from 14 to 255), `wifictl_set_channel` returns after logging one
error line, issues no driver request at all, and leaves the driver state (with it the
radio channel), the pending driver responses and both statics unchanged. -/
theorem wifictl_set_channel_out_of_range (channel : Nat) (w : World)
    (h : channel = 0 ∨ 13 < channel) :
    wifictl_set_channel channel w
        = .returned { w with trace := w.trace ++
            [Effect.log .ESP_LOG_ERROR
              "Channel out of range. Expected value from <1,13> but got %u"] }
      ∧ requests (wifictl_set_channel channel w).world.trace = requests w.trace
      ∧ (wifictl_set_channel channel w).world.drv.channel = w.drv.channel
      ∧ (wifictl_set_channel channel w).world.drv = w.drv := by
  have hc : wifictl_set_channel channel w
        = .returned { w with trace := w.trace ++
            [Effect.log .ESP_LOG_ERROR
              "Channel out of range. Expected value from <1,13> but got %u"] } := by
    unfold wifictl_set_channel
    rw [if_pos h]
    rfl
  refine ⟨hc, ?_, ?_, ?_⟩
  · rw [hc]
    simp [Outcome.world, requests_append, requests_log, requests_nil]
  · rw [hc]; rfl
  · rw [hc]; rfl

/-- C3 at a concrete input: channel 14 on the example controller. -/
theorem wifictl_set_channel_out_of_range_witness :
    (14 = 0 ∨ 13 < 14)
      ∧ wifictl_set_channel 14 World.exampleUp
          = .returned { World.exampleUp with trace :=
              [Effect.log .ESP_LOG_ERROR
                "Channel out of range. Expected value from <1,13> but got %u"] }
      ∧ (wifictl_set_channel 14 World.exampleUp).world.drv.channel = 1 :=
  ⟨by decide,
   (wifictl_set_channel_out_of_range 14 World.exampleUp (by decide)).1,
   (wifictl_set_channel_out_of_range 14 World.exampleUp (by decide)).2.2.1⟩

/-- C4 (as written, refuted): on a controller on which initialisation has not run, a
call with a 64-byte password is rejected and returns, but the flag went from false to
true, the stored original MAC was overwritten with the AP's MAC, the radio mode went from
null to AP+STA, and nine driver requests were issued. -/
theorem rejected_connect_still_initialises :
    ∃ w1, wifictl_sta_connect_to_ap wifi_ap_record_t.example (some (List.replicate 64 97))
            (World.boot [36, 111, 40, 1, 2, 3] [36, 111, 40, 1, 2, 2] []) = .returned w1
      ∧ 63 < strlen (List.replicate 64 97)
      ∧ (World.boot [36, 111, 40, 1, 2, 3] [36, 111, 40, 1, 2, 2] []).wifi_init = false
      ∧ w1.wifi_init = true
      ∧ (World.boot [36, 111, 40, 1, 2, 3] [36, 111, 40, 1, 2, 2] []).original_mac_ap
          = [0, 0, 0, 0, 0, 0]
      ∧ w1.original_mac_ap = [36, 111, 40, 1, 2, 3]
      ∧ (World.boot [36, 111, 40, 1, 2, 3] [36, 111, 40, 1, 2, 2] []).drv.mode = .WIFI_MODE_NULL
      ∧ w1.drv.mode = .WIFI_MODE_APSTA
      ∧ (requests w1.trace).length = 9 := by
  refine ⟨_, rfl, ?_, ?_, ?_, ?_, ?_, ?_, ?_, ?_⟩ <;> decide

/-- C4 (amended): for every controller state in which initialisation has already run and
every password longer than 63 bytes, `wifictl_sta_connect_to_ap` returns with both
statics, the driver state and the pending responses unchanged, having added two log
lines and issued no driver request.  On a controller that is not yet initialised the
guard runs first; the requests issued are then those of the initialisation and nothing
else. -/
theorem wifictl_sta_connect_rejected_frame (ap_record : wifi_ap_record_t) (p : List Nat)
    (w : World) (h : 63 < strlen p) :
    (w.wifi_init = true →
        wifictl_sta_connect_to_ap ap_record (some p) w = .returned
            { w with trace := w.trace ++
                [Effect.log .ESP_LOG_DEBUG "Connecting STA to AP...",
                 Effect.log .ESP_LOG_ERROR "Password is too long. Max supported length is 63"] }
          ∧ requests (since w (wifictl_sta_connect_to_ap ap_record (some p) w).world) = []
          ∧ (wifictl_sta_connect_to_ap ap_record (some p) w).world.wifi_init = w.wifi_init
          ∧ (wifictl_sta_connect_to_ap ap_record (some p) w).world.original_mac_ap
              = w.original_mac_ap
          ∧ (wifictl_sta_connect_to_ap ap_record (some p) w).world.drv = w.drv
          ∧ (wifictl_sta_connect_to_ap ap_record (some p) w).world.responses = w.responses)
      ∧ (w.wifi_init = false →
          wifictl_sta_connect_to_ap ap_record (some p) w
            = (wifi_init_apsta (ESP_LOG .ESP_LOG_DEBUG "Connecting STA to AP..." w)).andThen
                fun w1 => .returned
                  (ESP_LOG .ESP_LOG_ERROR "Password is too long. Max supported length is 63" w1)) := by
  have heq := sta_connect_too_long_eq ap_record p w h
  constructor
  · intro hi
    have he : wifictl_sta_connect_to_ap ap_record (some p) w = .returned
        { w with trace := w.trace ++
            [Effect.log .ESP_LOG_DEBUG "Connecting STA to AP...",
             Effect.log .ESP_LOG_ERROR "Password is too long. Max supported length is 63"] } := by
      rw [heq, init_guard_of_init _ (by simpa [ESP_LOG_wifi_init] using hi)]
      simp [Outcome.andThen, ESP_LOG, List.append_assoc]
    refine ⟨he, ?_, ?_, ?_, ?_, ?_⟩
    · rw [he]
      simp [Outcome.world, since, requests_log, requests_nil]
    · rw [he]; rfl
    · rw [he]; rfl
    · rw [he]; rfl
    · rw [he]; rfl
  · intro hi
    rw [heq]
    simp [init_guard, ESP_LOG_wifi_init, hi]

/-- C4 (amended) at a concrete input: a 64-byte password on the example controller. -/
theorem wifictl_sta_connect_rejected_frame_witness :
    63 < strlen (List.replicate 64 97)
      ∧ World.exampleUp.wifi_init = true
      ∧ (wifictl_sta_connect_to_ap wifi_ap_record_t.example (some (List.replicate 64 97))
          World.exampleUp).world.drv = World.exampleUp.drv :=
  ⟨by decide, rfl,
   ((wifictl_sta_connect_rejected_frame wifi_ap_record_t.example (List.replicate 64 97)
      World.exampleUp (by decide)).1 rfl).2.2.2.2.1⟩

/-- C5: let an operation run the initialisation on a controller whose flag was down and
return, and let any finite sequence of further operations (spoofing the AP MAC with
arbitrary addresses, restoring it, anything else, events included) return.  Then
`wifictl_restore_ap_mac()` issues exactly one request, a set-MAC on the AP interface
carrying the MAC the AP interface had when the initialisation ran; the call returns when
the driver accepts the request, and whenever it returns the AP MAC is that value. -/
theorem wifictl_restore_ap_mac_restores_original (k : MgmtConfig) (w w1 w2 : World) (op : Op)
    (ops : List Op)
    (h0 : w.wifi_init = false)
    (h1 : step k op w = .returned w1)
    (hi : w1.wifi_init = true)
    (h2 : run k ops w1 = .returned w2) :
    w2.original_mac_ap = w.drv.mac_ap
      ∧ requests (since w2 (wifictl_restore_ap_mac w2).world)
          = [.esp_wifi_set_mac .WIFI_IF_AP w.drv.mac_ap]
      ∧ (w2.answer = ESP_OK → ∃ w3, wifictl_restore_ap_mac w2 = .returned w3)
      ∧ (∀ w3, wifictl_restore_ap_mac w2 = .returned w3 → w3.drv.mac_ap = w.drv.mac_ap) := by
  obtain ⟨-, -, hq, hgd⟩ := step_frame k op w
  have hg : op.hasGuard = true := by
    by_contra hn
    have hn0 : op.hasGuard = false := by simpa using hn
    have := (hq h0 hn0).1
    rw [h1] at this
    simp only [Outcome.world] at this
    rw [hi] at this
    exact absurd this (by decide)
  have hsaved : w1.original_mac_ap = w.drv.mac_ap := (hgd h0 hg w1 h1).2
  have hkeep := (run_keeps_statics k ops w1 hi).2
  rw [h2] at hkeep
  simp only [Outcome.world] at hkeep
  have hom : w2.original_mac_ap = w.drv.mac_ap := by rw [hkeep, hsaved]
  rw [wifictl_restore_ap_mac_eq, hom]
  refine ⟨rfl, ?_, ?_, ?_⟩
  · split_ifs <;>
      simp [Outcome.world, since, requests_log, requests_call, requests_nil]
  · intro hok
    rw [if_pos hok]
    exact ⟨_, rfl⟩
  · intro w3 h3
    by_cases hok : w2.answer = ESP_OK
    · rw [if_pos hok] at h3
      simp only [Outcome.returned.injEq] at h3
      rw [← h3]
    · rw [if_neg hok] at h3
      cases h3

/-- C5 at a concrete input: the management AP is started on a fresh controller whose AP
MAC is 24:6f:28:01:02:03, two spoof/restore cycles follow and leave the AP MAC spoofed;
the restore then sets it back to 24:6f:28:01:02:03. -/
theorem wifictl_restore_ap_mac_restores_original_witness :
    (run MgmtConfig.example Op.spoofCycles
        (step MgmtConfig.example .mgmt_ap_start
          (World.boot [36, 111, 40, 1, 2, 3] [36, 111, 40, 1, 2, 2] [])).world).world.drv.mac_ap
        = [170, 187, 204, 221, 238, 255]
      ∧ ∀ w3, wifictl_restore_ap_mac
          (run MgmtConfig.example Op.spoofCycles
            (step MgmtConfig.example .mgmt_ap_start
              (World.boot [36, 111, 40, 1, 2, 3] [36, 111, 40, 1, 2, 2] [])).world).world
            = .returned w3 →
          w3.drv.mac_ap = [36, 111, 40, 1, 2, 3] :=
  ⟨by decide,
   (wifictl_restore_ap_mac_restores_original MgmtConfig.example
      (World.boot [36, 111, 40, 1, 2, 3] [36, 111, 40, 1, 2, 2] [])
      (step MgmtConfig.example .mgmt_ap_start
        (World.boot [36, 111, 40, 1, 2, 3] [36, 111, 40, 1, 2, 2] [])).world
      (run MgmtConfig.example Op.spoofCycles
        (step MgmtConfig.example .mgmt_ap_start
          (World.boot [36, 111, 40, 1, 2, 3] [36, 111, 40, 1, 2, 2] [])).world).world
      .mgmt_ap_start Op.spoofCycles rfl rfl rfl rfl).2.2.2⟩

/-- C6: start from a controller whose flag is down and on which the initialisation has
never been entered.  Over every sequence of public operations and delivered events the
initialisation routine is entered at most once, and in every state returned to the
caller the flag is up exactly when it has been entered.  Operation by operation: with
the flag down, `wifictl_ap_start`, `wifictl_mgmt_ap_start` and
`wifictl_sta_connect_to_ap` enter it once, and when they return the flag is up and the
saved MAC is the AP's MAC; with the flag down every other operation leaves the flag and
the saved MAC alone; with the flag up every operation skips the routine, leaves the flag
up and leaves the saved MAC alone, and so does every sequence of operations. -/
theorem initialisation_runs_at_most_once (k : MgmtConfig) (ops : List Op) (w : World)
    (h0 : w.wifi_init = false) (ht : initRuns w.trace = 0) :
    initRuns (run k ops w).world.trace ≤ 1
      ∧ (∀ w1, run k ops w = .returned w1 →
          initRuns w1.trace = (if w1.wifi_init then 1 else 0))
      ∧ (∀ (op : Op) (v : World), v.wifi_init = false → op.hasGuard = true →
          initRuns (since v (step k op v).world) = 1
            ∧ ∀ v1, step k op v = .returned v1 →
                v1.wifi_init = true ∧ v1.original_mac_ap = v.drv.mac_ap)
      ∧ (∀ (op : Op) (v : World), v.wifi_init = false → op.hasGuard = false →
          initRuns (since v (step k op v).world) = 0
            ∧ (step k op v).world.wifi_init = false
            ∧ (step k op v).world.original_mac_ap = v.original_mac_ap)
      ∧ (∀ (op : Op) (v : World), v.wifi_init = true →
          initRuns (since v (step k op v).world) = 0
            ∧ (step k op v).world.wifi_init = true
            ∧ (step k op v).world.original_mac_ap = v.original_mac_ap)
      ∧ (∀ (later : List Op) (v : World), v.wifi_init = true →
          (run k later v).world.wifi_init = true
            ∧ (run k later v).world.original_mac_ap = v.original_mac_ap) := by
  have hinv : initRuns w.trace = (if w.wifi_init then 1 else 0) := by
    rw [ht, h0]; rfl
  obtain ⟨hle, hret⟩ := run_initRuns k ops w hinv
  refine ⟨hle, hret, ?_, ?_, ?_, ?_⟩
  · intro op v hv hg
    obtain ⟨⟨t, ht1, ht2⟩, -, -, h3⟩ := step_frame k op v
    rw [since_eq v _ t ht1, ht2]
    exact ⟨by simp [hg, hv], h3 hv hg⟩
  · intro op v hv hg
    obtain ⟨⟨t, ht1, ht2⟩, -, h2, -⟩ := step_frame k op v
    rw [since_eq v _ t ht1, ht2]
    exact ⟨by simp [hg], h2 hv hg⟩
  · intro op v hv
    obtain ⟨⟨t, ht1, ht2⟩, h1, -, -⟩ := step_frame k op v
    rw [since_eq v _ t ht1, ht2]
    exact ⟨by simp [hv], h1 hv⟩
  · intro later v hv
    exact run_keeps_statics k later v hv

/-- C6 at a concrete input: three guarded calls on a fresh controller enter the
initialisation once, and the saved MAC at the end is the AP's factory MAC. -/
theorem initialisation_runs_at_most_once_witness :
    initRuns (run MgmtConfig.example Op.threeStarts
        (World.boot [36, 111, 40, 1, 2, 3] [36, 111, 40, 1, 2, 2] [])).world.trace ≤ 1
      ∧ initRuns (run MgmtConfig.example Op.threeStarts
          (World.boot [36, 111, 40, 1, 2, 3] [36, 111, 40, 1, 2, 2] [])).world.trace = 1
      ∧ (run MgmtConfig.example Op.threeStarts
          (World.boot [36, 111, 40, 1, 2, 3] [36, 111, 40, 1, 2, 2] [])).world.original_mac_ap
          = [36, 111, 40, 1, 2, 3] :=
  ⟨(initialisation_runs_at_most_once MgmtConfig.example Op.threeStarts
      (World.boot [36, 111, 40, 1, 2, 3] [36, 111, 40, 1, 2, 2] []) rfl rfl).1,
   by decide, by decide⟩

/-- C7 (as written, refuted): with the management AP running on the example
controller (its config-set request carried channel 1), `wifictl_ap_stop()` returns; the
single request it issued carries channel 0, and the AP configuration then in effect has
channel 0 and an empty SSID: the AP's channel is not the same after the call as before
it. -/
theorem ap_stop_resets_ap_channel :
    ∃ w w1, wifictl_mgmt_ap_start MgmtConfig.example World.exampleUp = .returned w
      ∧ wifictl_ap_stop w = .returned w1
      ∧ requests (since World.exampleUp w)
          = [.esp_wifi_set_config_ap (mgmt_wifi_config MgmtConfig.example)]
      ∧ (mgmt_wifi_config MgmtConfig.example).channel = 1
      ∧ requests (since w w1) = [.esp_wifi_set_config_ap wifi_ap_config_zero]
      ∧ wifi_ap_config_zero.channel = 0
      ∧ w.drv.config_ap.channel = 1
      ∧ w1.drv.config_ap.channel = 0
      ∧ w1.drv.config_ap.channel ≠ w.drv.config_ap.channel
      ∧ w1.drv.config_ap.ssid ≠ w.drv.config_ap.ssid := by
  refine ⟨_, _, rfl, rfl, ?_, ?_, ?_, ?_, ?_, ?_, ?_, ?_⟩ <;> decide

/-- C7 (amended): `wifictl_ap_stop()` issues exactly one driver request, an AP
config-set carrying the all-zero configuration (max_connection 0, and also channel 0,
empty SSID and password, open authentication); it issues no mode-set and no other
request.  The AP MAC address, the radio mode, the channel selected through
`esp_wifi_set_channel`, the station configuration and both statics are the same after
the call as before it.  When the driver accepts the request the call returns and the
all-zero configuration is the AP configuration in effect; when the driver rejects it
the firmware aborts. -/
theorem wifictl_ap_stop_spec (w : World) :
    requests (since w (wifictl_ap_stop w).world)
        = [.esp_wifi_set_config_ap wifi_ap_config_zero]
      ∧ wifi_ap_config_zero.max_connection = 0
      ∧ wifi_ap_config_zero.channel = 0
      ∧ (wifictl_ap_stop w).world.drv.mac_ap = w.drv.mac_ap
      ∧ (wifictl_ap_stop w).world.drv.mac_sta = w.drv.mac_sta
      ∧ (wifictl_ap_stop w).world.drv.mode = w.drv.mode
      ∧ (wifictl_ap_stop w).world.drv.channel = w.drv.channel
      ∧ (wifictl_ap_stop w).world.drv.config_sta = w.drv.config_sta
      ∧ (wifictl_ap_stop w).world.wifi_init = w.wifi_init
      ∧ (wifictl_ap_stop w).world.original_mac_ap = w.original_mac_ap
      ∧ (w.answer = ESP_OK →
          wifictl_ap_stop w = .returned
            { w with
                drv := { w.drv with config_ap := wifi_ap_config_zero }
                responses := w.responses.tail
                trace := w.trace ++
                  [Effect.log .ESP_LOG_DEBUG "Stopping AP...",
                   Effect.call (.esp_wifi_set_config_ap wifi_ap_config_zero) ESP_OK,
                   Effect.log .ESP_LOG_DEBUG "AP stopped"] })
      ∧ (w.answer ≠ ESP_OK →
          wifictl_ap_stop w = .aborted
            { w with
                responses := w.responses.tail
                trace := w.trace ++
                  [Effect.log .ESP_LOG_DEBUG "Stopping AP...",
                   Effect.call (.esp_wifi_set_config_ap wifi_ap_config_zero) w.answer] }) := by
  have hz : ({ wifi_ap_config_zero with max_connection := 0 } : wifi_ap_config_t)
      = wifi_ap_config_zero := rfl
  unfold wifictl_ap_stop
  simp only [hz, check_andThen]
  have ha : (ESP_LOG .ESP_LOG_DEBUG "Stopping AP..." w).answer = w.answer := rfl
  rw [ha]
  by_cases h : w.answer = ESP_OK
  · simp [h, Outcome.world, since, ESP_LOG, Driver.accept, requests_log, requests_call,
      requests_nil, wifi_ap_config_zero, List.append_assoc]
  · simp [h, Outcome.world, since, ESP_LOG, requests_log, requests_call,
      requests_nil, wifi_ap_config_zero, List.append_assoc]

/-- C7 (amended) at a concrete input: the example controller, whose driver accepts the
request. -/
theorem wifictl_ap_stop_spec_witness :
    World.exampleUp.answer = ESP_OK
      ∧ wifictl_ap_stop World.exampleUp = .returned
          { World.exampleUp with
              drv := { World.exampleUp.drv with config_ap := wifi_ap_config_zero }
              responses := World.exampleUp.responses.tail
              trace := World.exampleUp.trace ++
                [Effect.log .ESP_LOG_DEBUG "Stopping AP...",
                 Effect.call (.esp_wifi_set_config_ap wifi_ap_config_zero) ESP_OK,
                 Effect.log .ESP_LOG_DEBUG "AP stopped"] } :=
  ⟨rfl, (wifictl_ap_stop_spec World.exampleUp).2.2.2.2.2.2.2.2.2.2.1 rfl⟩

/-- C8: for every target record and every password that is absent or at most 63 bytes
long there is one station configuration with: channel = the record's primary channel,
scan method = fast scan, the 32 SSID bytes of the record, and as password the bytes of
the given password followed by NUL bytes up to 64 (64 NUL bytes when it is absent).
Whenever the guard returned and the driver accepts the config-set, the call issues
exactly two requests after the guard, the config-set with that configuration and then
one connect; that configuration is then the station configuration in effect, and the
call returns when the driver also accepts the connect. -/
theorem wifictl_sta_connect_applies_config (ap_record : wifi_ap_record_t)
    (password : Option (List Nat)) (w : World)
    (hp : ∀ p, password = some p → strlen p ≤ 63) :
    ∃ conf : wifi_sta_config_t,
      conf.channel = ap_record.primary
      ∧ conf.scan_method = .WIFI_FAST_SCAN
      ∧ conf.ssid.length = 32
      ∧ (∀ i, i < 32 → conf.ssid.getD i 0 = ap_record.ssid.getD i 0)
      ∧ conf.password =
          (match password with
           | some p => cstr p ++ List.replicate (64 - strlen p) 0
           | none => List.replicate 64 0)
      ∧ (∀ w1, init_guard (ESP_LOG .ESP_LOG_DEBUG "Connecting STA to AP..." w) = .returned w1 →
          w1.answer = ESP_OK →
            (wifictl_sta_connect_to_ap ap_record password w).world =
                { w1 with
                    drv := { w1.drv with config_sta := conf }
                    responses := w1.responses.tail.tail
                    trace := w1.trace ++
                      [Effect.log .ESP_LOG_DEBUG ".ssid=%s",
                       Effect.call (.esp_wifi_set_config_sta conf) ESP_OK,
                       Effect.call .esp_wifi_connect (w1.responses.tail.headD ESP_OK)] }
              ∧ requests (since w1 (wifictl_sta_connect_to_ap ap_record password w).world)
                  = [.esp_wifi_set_config_sta conf, .esp_wifi_connect]
              ∧ (w1.responses.tail.headD ESP_OK = ESP_OK →
                  ∃ w2, wifictl_sta_connect_to_ap ap_record password w = .returned w2))
      ∧ (w.wifi_init = true → w.answer = ESP_OK →
          requests (since w (wifictl_sta_connect_to_ap ap_record password w).world)
              = [.esp_wifi_set_config_sta conf, .esp_wifi_connect]
            ∧ (wifictl_sta_connect_to_ap ap_record password w).world.drv.config_sta = conf) := by
  have heq := sta_connect_accepted_eq ap_record password w hp
  refine ⟨sta_conf_for ap_record password, ?_, ?_, ?_, ?_, ?_, ?_, ?_⟩
  · cases password <;> rfl
  · cases password <;> rfl
  · cases password <;> simp [sta_conf_for, sta_wifi_config, memcpy_length]
  · intro i hi
    cases password <;> simp only [sta_conf_for, sta_wifi_config] <;> exact memcpy_getD _ _ _ hi
  · cases password with
    | none => rfl
    | some p =>
      have h64 : strlen p ≤ 64 := le_trans (hp p rfl) (by norm_num)
      simp only [sta_conf_for]
      exact strncpy_of_le p 64 h64
  · intro w1 hg ha
    obtain ⟨hw, hret⟩ := sta_apply_and_connect_accepted (sta_conf_for ap_record password) w1 ha
    rw [heq, hg]
    simp only [Outcome.andThen]
    refine ⟨hw, ?_, hret⟩
    rw [since_eq w1 _ _ (by rw [hw])]
    simp [requests_log, requests_call, requests_nil]
  · intro hi ha
    have hg := init_guard_of_init (ESP_LOG .ESP_LOG_DEBUG "Connecting STA to AP..." w)
      (by simpa [ESP_LOG_wifi_init] using hi)
    have ha1 : (ESP_LOG .ESP_LOG_DEBUG "Connecting STA to AP..." w).answer = ESP_OK := ha
    obtain ⟨hw, -⟩ := sta_apply_and_connect_accepted (sta_conf_for ap_record password) _ ha1
    rw [heq, hg]
    simp only [Outcome.andThen]
    constructor
    · rw [since_eq w _
        [Effect.log .ESP_LOG_DEBUG "Connecting STA to AP...",
         Effect.log .ESP_LOG_DEBUG ".ssid=%s",
         Effect.call (.esp_wifi_set_config_sta (sta_conf_for ap_record password)) ESP_OK,
         Effect.call .esp_wifi_connect
           ((ESP_LOG .ESP_LOG_DEBUG "Connecting STA to AP..." w).responses.tail.headD ESP_OK)]
        (by rw [hw]; simp [ESP_LOG, List.append_assoc])]
      simp [requests_log, requests_call, requests_nil]
    · rw [hw]

/-- C8 at a concrete input: the example record (SSID "home", channel 6) and the password
"secret12" on the example controller. -/
theorem wifictl_sta_connect_applies_config_witness :
    ∃ conf : wifi_sta_config_t,
      conf.channel = 6
      ∧ conf.scan_method = .WIFI_FAST_SCAN
      ∧ conf.password = [115, 101, 99, 114, 101, 116, 49, 50] ++ List.replicate 56 0
      ∧ requests (since World.exampleUp
          (wifictl_sta_connect_to_ap wifi_ap_record_t.example
            (some [115, 101, 99, 114, 101, 116, 49, 50]) World.exampleUp).world)
          = [.esp_wifi_set_config_sta conf, .esp_wifi_connect] := by
  obtain ⟨conf, hc, hs, -, -, hpw, -, h⟩ :=
    wifictl_sta_connect_applies_config wifi_ap_record_t.example
      (some [115, 101, 99, 114, 101, 116, 49, 50]) World.exampleUp
      (by intro p hp; cases hp; decide)
  exact ⟨conf, hc, hs, hpw, (h rfl rfl).1⟩

/-- C9 (as written, refuted): with a configured SSID of 4 bytes, a configured password of
65 bytes and a configured max-connections value of 300, the configuration
`wifictl_mgmt_ap_start` applies on the example controller carries only the first 64
password bytes and max_connection 44. -/
theorem mgmt_ap_start_truncates_oversized :
    strlen MgmtConfig.oversized.CONFIG_MGMT_AP_SSID ≤ 32
      ∧ requests (wifictl_mgmt_ap_start MgmtConfig.oversized World.exampleUp).world.trace
          = [.esp_wifi_set_config_ap (mgmt_wifi_config MgmtConfig.oversized)]
      ∧ (mgmt_wifi_config MgmtConfig.oversized).password = List.replicate 64 97
      ∧ (mgmt_wifi_config MgmtConfig.oversized).password
          ≠ MgmtConfig.oversized.CONFIG_MGMT_AP_PASSWORD
      ∧ (mgmt_wifi_config MgmtConfig.oversized).max_connection = 44
      ∧ (mgmt_wifi_config MgmtConfig.oversized).max_connection
          ≠ MgmtConfig.oversized.CONFIG_MGMT_AP_MAX_CONNECTIONS := by
  refine ⟨?_, ?_, ?_, ?_, ?_, ?_⟩ <;> decide

/-- C9 (amended): for every configured management SSID of at most 32 bytes, configured
password of at most 64 bytes and configured max-connections value below 256, there is
one AP configuration whose SSID field is the configured SSID padded with NUL bytes to 32,
whose SSID length is the length of the configured SSID, whose password field is the
configured password padded with NUL bytes to 64, whose max_connection is the configured
value, and with channel 1, authentication WPA2-PSK and hidden = 0.  On a controller that
is not initialised the initialisation routine runs first.  Whenever the guard returned,
`wifictl_mgmt_ap_start` returns and its only request after the guard is the AP config-set
with that configuration, which is the AP configuration in effect when the driver
accepts it. -/
theorem wifictl_mgmt_ap_start_spec (k : MgmtConfig) (w : World)
    (hs : strlen k.CONFIG_MGMT_AP_SSID ≤ 32)
    (hpw : strlen k.CONFIG_MGMT_AP_PASSWORD ≤ 64)
    (hm : k.CONFIG_MGMT_AP_MAX_CONNECTIONS < 256) :
    ∃ conf : wifi_ap_config_t,
      conf.ssid = cstr k.CONFIG_MGMT_AP_SSID
                    ++ List.replicate (32 - strlen k.CONFIG_MGMT_AP_SSID) 0
      ∧ conf.ssid_len = strlen k.CONFIG_MGMT_AP_SSID
      ∧ conf.password = cstr k.CONFIG_MGMT_AP_PASSWORD
                    ++ List.replicate (64 - strlen k.CONFIG_MGMT_AP_PASSWORD) 0
      ∧ conf.max_connection = k.CONFIG_MGMT_AP_MAX_CONNECTIONS
      ∧ conf.channel = 1
      ∧ conf.authmode = .WIFI_AUTH_WPA2_PSK
      ∧ conf.ssid_hidden = 0
      ∧ (∀ w1, init_guard (ESP_LOG .ESP_LOG_DEBUG "Starting AP..." w) = .returned w1 →
          (∃ w2, wifictl_mgmt_ap_start k w = .returned w2)
            ∧ requests (since w1 (wifictl_mgmt_ap_start k w).world)
                = [.esp_wifi_set_config_ap conf]
            ∧ (w1.answer = ESP_OK → (wifictl_mgmt_ap_start k w).world.drv.config_ap = conf))
      ∧ (w.wifi_init = true →
          requests (since w (wifictl_mgmt_ap_start k w).world)
            = [.esp_wifi_set_config_ap conf])
      ∧ (w.wifi_init = false →
          init_guard (ESP_LOG .ESP_LOG_DEBUG "Starting AP..." w)
            = wifi_init_apsta (ESP_LOG .ESP_LOG_DEBUG "Starting AP..." w))
      ∧ ((∀ i, i < 7 → w.responses.getD i ESP_OK = ESP_OK) →
          ∃ w1, init_guard (ESP_LOG .ESP_LOG_DEBUG "Starting AP..." w) = .returned w1
            ∧ w1.wifi_init = true) := by
  refine ⟨mgmt_wifi_config k, ?_, ?_, ?_, ?_, rfl, rfl, rfl, ?_, ?_, ?_, ?_⟩
  · exact strncpy_of_le _ _ hs
  · show strlen k.CONFIG_MGMT_AP_SSID % 256 = strlen k.CONFIG_MGMT_AP_SSID
    exact Nat.mod_eq_of_lt (by omega)
  · exact strncpy_of_le _ _ hpw
  · show k.CONFIG_MGMT_AP_MAX_CONNECTIONS % 256 = k.CONFIG_MGMT_AP_MAX_CONNECTIONS
    exact Nat.mod_eq_of_lt hm
  · intro w1 hg
    obtain ⟨hret, hreq, hacc⟩ := ap_apply_spec (mgmt_wifi_config k) w1
    unfold wifictl_mgmt_ap_start wifictl_ap_start
    simp only [hg, Outcome.andThen]
    exact ⟨hret, hreq, hacc⟩
  · intro hi
    have hg := init_guard_of_init (ESP_LOG .ESP_LOG_DEBUG "Starting AP..." w)
      (by simpa [ESP_LOG_wifi_init] using hi)
    unfold wifictl_mgmt_ap_start wifictl_ap_start
    simp only [hg, Outcome.andThen]
    by_cases h : (ESP_LOG .ESP_LOG_DEBUG "Starting AP..." w).answer = ESP_OK
    · rw [ap_apply_accepted _ _ h]
      simp [Outcome.world, since, ESP_LOG, requests_log, requests_call, requests_nil,
        List.append_assoc]
    · rw [ap_apply_rejected _ _ h]
      simp [Outcome.world, since, ESP_LOG, requests_log, requests_call, requests_nil,
        List.append_assoc]
  · intro hi
    simp [init_guard, ESP_LOG_wifi_init, hi]
  · intro h
    exact init_guard_returns _ h

/-- C9 (amended) at a concrete input: the example settings on a controller that has not
been initialised. -/
theorem wifictl_mgmt_ap_start_spec_witness :
    ∃ conf : wifi_ap_config_t,
      conf.ssid = [109, 103, 109, 116] ++ List.replicate 28 0
      ∧ conf.ssid_len = 4
      ∧ conf.password = [109, 103, 109, 116, 97, 100, 109, 105, 110] ++ List.replicate 55 0
      ∧ conf.max_connection = 1
      ∧ conf.channel = 1
      ∧ conf.authmode = .WIFI_AUTH_WPA2_PSK
      ∧ conf.ssid_hidden = 0
      ∧ ∃ w1, init_guard (ESP_LOG .ESP_LOG_DEBUG "Starting AP..."
                (World.boot [36, 111, 40, 1, 2, 3] [36, 111, 40, 1, 2, 2] [])) = .returned w1
          ∧ requests (since w1 (wifictl_mgmt_ap_start MgmtConfig.example
                (World.boot [36, 111, 40, 1, 2, 3] [36, 111, 40, 1, 2, 2] [])).world)
              = [.esp_wifi_set_config_ap conf]
          ∧ (wifictl_mgmt_ap_start MgmtConfig.example
                (World.boot [36, 111, 40, 1, 2, 3] [36, 111, 40, 1, 2, 2] [])).world.drv.config_ap
              = conf := by
  obtain ⟨conf, h1, h2, h3, h4, h5, h6, h7, h8, -, -, -⟩ :=
    wifictl_mgmt_ap_start_spec MgmtConfig.example
      (World.boot [36, 111, 40, 1, 2, 3] [36, 111, 40, 1, 2, 2] [])
      (by decide) (by decide) (by decide)
  exact ⟨conf, h1, h2, h3, h4, h5, h6, h7, _, rfl, (h8 _ rfl).2.1, (h8 _ rfl).2.2 rfl⟩

/-- C10: for every AP configuration and every code other than `ESP_OK` that the driver
returns for the AP config-set call, `wifictl_ap_start` returns after logging the error;
the config-set is the last driver request it issues (only the error line follows), and
the driver state, hence the AP configuration in effect, is what it was before the
config-set call.  Stated first for an initialised controller and then for any state in
which the guard returned (where the guard itself never touches the AP configuration). -/
theorem wifictl_ap_start_config_rejected (conf : wifi_ap_config_t) (w : World) :
    (w.wifi_init = true → w.answer ≠ ESP_OK →
        wifictl_ap_start conf w = .returned
          { w with
              responses := w.responses.tail
              trace := w.trace ++
                [Effect.log .ESP_LOG_DEBUG "Starting AP...",
                 Effect.call (.esp_wifi_set_config_ap conf) w.answer,
                 Effect.log .ESP_LOG_ERROR "Failed to set AP config: %s"] })
      ∧ (∀ w1, init_guard (ESP_LOG .ESP_LOG_DEBUG "Starting AP..." w) = .returned w1 →
          w1.answer ≠ ESP_OK →
            wifictl_ap_start conf w = .returned
              { w1 with
                  responses := w1.responses.tail
                  trace := w1.trace ++
                    [Effect.call (.esp_wifi_set_config_ap conf) w1.answer,
                     Effect.log .ESP_LOG_ERROR "Failed to set AP config: %s"] }
              ∧ (wifictl_ap_start conf w).world.drv = w1.drv
              ∧ (wifictl_ap_start conf w).world.drv.config_ap = w.drv.config_ap) := by
  constructor
  · intro hi ha
    have hg : init_guard (ESP_LOG .ESP_LOG_DEBUG "Starting AP..." w)
        = .returned (ESP_LOG .ESP_LOG_DEBUG "Starting AP..." w) :=
      init_guard_of_init _ (by simpa [ESP_LOG_wifi_init] using hi)
    have ha1 : (ESP_LOG .ESP_LOG_DEBUG "Starting AP..." w).answer ≠ ESP_OK := ha
    unfold wifictl_ap_start
    simp only [hg, Outcome.andThen]
    rw [ap_apply_rejected _ _ ha1]
    simp [ESP_LOG, World.answer, List.append_assoc]
  · intro w1 hg ha
    have hspec := init_guard_spec (ESP_LOG .ESP_LOG_DEBUG "Starting AP..." w)
    rw [hg] at hspec
    have hc : w1.drv.config_ap = w.drv.config_ap := by
      have := hspec.2.2.2.2.1
      simpa [Outcome.world, ESP_LOG] using this
    have he : wifictl_ap_start conf w = .returned
        { w1 with
            responses := w1.responses.tail
            trace := w1.trace ++
              [Effect.call (.esp_wifi_set_config_ap conf) w1.answer,
               Effect.log .ESP_LOG_ERROR "Failed to set AP config: %s"] } := by
      unfold wifictl_ap_start
      simp only [hg, Outcome.andThen]
      exact ap_apply_rejected _ _ ha
    refine ⟨he, ?_, ?_⟩
    · rw [he]; rfl
    · rw [he]; exact hc

/-- C10 at a concrete input: the example controller, the management configuration, and a
driver that answers the config-set with error code 12289. -/
theorem wifictl_ap_start_config_rejected_witness :
    wifictl_ap_start (mgmt_wifi_config MgmtConfig.example)
        { World.exampleUp with responses := [12289] }
      = .returned
          { World.exampleUp with
              responses := []
              trace :=
                [Effect.log .ESP_LOG_DEBUG "Starting AP...",
                 Effect.call (.esp_wifi_set_config_ap (mgmt_wifi_config MgmtConfig.example)) 12289,
                 Effect.log .ESP_LOG_ERROR "Failed to set AP config: %s"] } :=
  (wifictl_ap_start_config_rejected (mgmt_wifi_config MgmtConfig.example)
      { World.exampleUp with responses := [12289] }).1 rfl (by decide)

end WifiController
